import Mathlib

/-!
PolyStoreX: routing engine and polyglot store.

A shallow embedding of `backend/router/routeEngine.js`, `backend/storage/polyglotStore.js`
and the parts of `backend/utils/logger.js` they call, followed by the properties proved
about them.

Modelling conventions.

* A JavaScript string is the list of its UTF-16 code units (`Str`).
* `toLowerCase` is the Unicode default case conversion ECMAScript prescribes, with the
  case tables of Unicode 14.0, the mapping of `U+0130` and the condition Final_Sigma.
* A JavaScript value is a JSON value or `undefined` (`Value`); request bodies reach the
  engine through `express.json()`, so no function, symbol or cyclic value occurs.
* A Number is carried as its canonical `ToString` rendering (`Value.num`): the code never
  does arithmetic on a payload number, it only tests it for truthiness and prints it.
  The three identifier counters are natural numbers; the embedding is exact while a counter
  stays below 2^53, where `++` on a double stops being exact.
* The process-wide state (`PolyglotStore.databases`, `PolyglotStore.counters`, and the
  console the logger writes to) is passed explicitly as a `World`.
* Clock readings (`new Date().toISOString()`, `Date.now()`) are inputs of the function that
  takes them. The timestamp the logger puts in front of each line is left out of the
  recorded console line.
-/

namespace PolyStoreX

/-! ## Strings -/

/-- A JavaScript string, as its UTF-16 code units. -/
abbrev Str := List Nat

/-- The code units of a literal of the source (all literals of the source are ASCII). -/
def str (s : String) : Str := s.toList.map Char.toNat

/-- The decimal rendering of a non-negative integer, as template literals produce it. -/
def decimal (n : Nat) : Str := (Nat.toDigits 10 n).map Char.toNat

/-- The code units `String.prototype.trim` strips: ECMAScript WhiteSpace and
LineTerminator. -/
def isWhiteSpace (c : Nat) : Bool :=
  c == 0x09 || c == 0x0A || c == 0x0B || c == 0x0C || c == 0x0D || c == 0x20 ||
  c == 0xA0 || c == 0x1680 || (0x2000 ≤ c && c ≤ 0x200A) || c == 0x2028 || c == 0x2029 ||
  c == 0x202F || c == 0x205F || c == 0x3000 || c == 0xFEFF

/-- Leading white space removed. -/
def trimStart (s : Str) : Str := s.dropWhile isWhiteSpace

/-- Trailing white space removed. -/
def trimEnd (s : Str) : Str := (s.reverse.dropWhile isWhiteSpace).reverse

/-- The method `String.prototype.trim`. -/
def trim (s : Str) : Str := trimEnd (trimStart s)

/-- One code unit lower-cased: `A`..`Z` go to `a`..`z`. -/
def lowerUnit (c : Nat) : Nat := if 65 ≤ c ∧ c ≤ 90 then c + 32 else c

/-- One code unit upper-cased: `a`..`z` go to `A`..`Z`. -/
def upperUnit (c : Nat) : Nat := if 97 ≤ c ∧ c ≤ 122 then c - 32 else c

/-- Whether `c` lies in one of the closed ranges of a table. -/
def inRanges (ranges : List (Nat × Nat)) (c : Nat) : Bool :=
  ranges.any fun r => r.1 ≤ c && c ≤ r.2

/-- The code points with the property Cased of the Unicode Character Database, version
14.0 (file `DerivedCoreProperties.txt`). -/
def casedRanges : List (Nat × Nat) :=
  [
    (0x41, 0x5A), (0x61, 0x7A), (0xAA, 0xAA), (0xB5, 0xB5), (0xBA, 0xBA),
    (0xC0, 0xD6), (0xD8, 0xF6), (0xF8, 0x1BA), (0x1BC, 0x1BF), (0x1C4, 0x293),
    (0x295, 0x2B8), (0x2C0, 0x2C1), (0x2E0, 0x2E4), (0x345, 0x345), (0x370, 0x373),
    (0x376, 0x377), (0x37A, 0x37D), (0x37F, 0x37F), (0x386, 0x386), (0x388, 0x38A),
    (0x38C, 0x38C), (0x38E, 0x3A1), (0x3A3, 0x3F5), (0x3F7, 0x481), (0x48A, 0x52F),
    (0x531, 0x556), (0x560, 0x588), (0x10A0, 0x10C5), (0x10C7, 0x10C7), (0x10CD, 0x10CD),
    (0x10D0, 0x10FA), (0x10FD, 0x10FF), (0x13A0, 0x13F5), (0x13F8, 0x13FD), (0x1C80, 0x1C88),
    (0x1C90, 0x1CBA), (0x1CBD, 0x1CBF), (0x1D00, 0x1DBF), (0x1E00, 0x1F15), (0x1F18, 0x1F1D),
    (0x1F20, 0x1F45), (0x1F48, 0x1F4D), (0x1F50, 0x1F57), (0x1F59, 0x1F59), (0x1F5B, 0x1F5B),
    (0x1F5D, 0x1F5D), (0x1F5F, 0x1F7D), (0x1F80, 0x1FB4), (0x1FB6, 0x1FBC), (0x1FBE, 0x1FBE),
    (0x1FC2, 0x1FC4), (0x1FC6, 0x1FCC), (0x1FD0, 0x1FD3), (0x1FD6, 0x1FDB), (0x1FE0, 0x1FEC),
    (0x1FF2, 0x1FF4), (0x1FF6, 0x1FFC), (0x2071, 0x2071), (0x207F, 0x207F), (0x2090, 0x209C),
    (0x2102, 0x2102), (0x2107, 0x2107), (0x210A, 0x2113), (0x2115, 0x2115), (0x2119, 0x211D),
    (0x2124, 0x2124), (0x2126, 0x2126), (0x2128, 0x2128), (0x212A, 0x212D), (0x212F, 0x2134),
    (0x2139, 0x2139), (0x213C, 0x213F), (0x2145, 0x2149), (0x214E, 0x214E), (0x2160, 0x217F),
    (0x2183, 0x2184), (0x24B6, 0x24E9), (0x2C00, 0x2CE4), (0x2CEB, 0x2CEE), (0x2CF2, 0x2CF3),
    (0x2D00, 0x2D25), (0x2D27, 0x2D27), (0x2D2D, 0x2D2D), (0xA640, 0xA66D), (0xA680, 0xA69D),
    (0xA722, 0xA787), (0xA78B, 0xA78E), (0xA790, 0xA7CA), (0xA7D0, 0xA7D1), (0xA7D3, 0xA7D3),
    (0xA7D5, 0xA7D9), (0xA7F5, 0xA7F6), (0xA7F8, 0xA7FA), (0xAB30, 0xAB5A), (0xAB5C, 0xAB68),
    (0xAB70, 0xABBF), (0xFB00, 0xFB06), (0xFB13, 0xFB17), (0xFF21, 0xFF3A), (0xFF41, 0xFF5A),
    (0x10400, 0x1044F), (0x104B0, 0x104D3), (0x104D8, 0x104FB), (0x10570, 0x1057A), (0x1057C, 0x1058A),
    (0x1058C, 0x10592), (0x10594, 0x10595), (0x10597, 0x105A1), (0x105A3, 0x105B1), (0x105B3, 0x105B9),
    (0x105BB, 0x105BC), (0x10780, 0x10780), (0x10783, 0x10785), (0x10787, 0x107B0), (0x107B2, 0x107BA),
    (0x10C80, 0x10CB2), (0x10CC0, 0x10CF2), (0x118A0, 0x118DF), (0x16E40, 0x16E7F), (0x1D400, 0x1D454),
    (0x1D456, 0x1D49C), (0x1D49E, 0x1D49F), (0x1D4A2, 0x1D4A2), (0x1D4A5, 0x1D4A6), (0x1D4A9, 0x1D4AC),
    (0x1D4AE, 0x1D4B9), (0x1D4BB, 0x1D4BB), (0x1D4BD, 0x1D4C3), (0x1D4C5, 0x1D505), (0x1D507, 0x1D50A),
    (0x1D50D, 0x1D514), (0x1D516, 0x1D51C), (0x1D51E, 0x1D539), (0x1D53B, 0x1D53E), (0x1D540, 0x1D544),
    (0x1D546, 0x1D546), (0x1D54A, 0x1D550), (0x1D552, 0x1D6A5), (0x1D6A8, 0x1D6C0), (0x1D6C2, 0x1D6DA),
    (0x1D6DC, 0x1D6FA), (0x1D6FC, 0x1D714), (0x1D716, 0x1D734), (0x1D736, 0x1D74E), (0x1D750, 0x1D76E),
    (0x1D770, 0x1D788), (0x1D78A, 0x1D7A8), (0x1D7AA, 0x1D7C2), (0x1D7C4, 0x1D7CB), (0x1DF00, 0x1DF09),
    (0x1DF0B, 0x1DF1E), (0x1E900, 0x1E943), (0x1F130, 0x1F149), (0x1F150, 0x1F169), (0x1F170, 0x1F189) ]

/-- The code points with the property Case_Ignorable of the Unicode Character Database,
version 14.0 (file `DerivedCoreProperties.txt`). -/
def caseIgnorableRanges : List (Nat × Nat) :=
  [
    (0x27, 0x27), (0x2E, 0x2E), (0x3A, 0x3A), (0x5E, 0x5E), (0x60, 0x60),
    (0xA8, 0xA8), (0xAD, 0xAD), (0xAF, 0xAF), (0xB4, 0xB4), (0xB7, 0xB8),
    (0x2B0, 0x36F), (0x374, 0x375), (0x37A, 0x37A), (0x384, 0x385), (0x387, 0x387),
    (0x483, 0x489), (0x559, 0x559), (0x55F, 0x55F), (0x591, 0x5BD), (0x5BF, 0x5BF),
    (0x5C1, 0x5C2), (0x5C4, 0x5C5), (0x5C7, 0x5C7), (0x5F4, 0x5F4), (0x600, 0x605),
    (0x610, 0x61A), (0x61C, 0x61C), (0x640, 0x640), (0x64B, 0x65F), (0x670, 0x670),
    (0x6D6, 0x6DD), (0x6DF, 0x6E8), (0x6EA, 0x6ED), (0x70F, 0x70F), (0x711, 0x711),
    (0x730, 0x74A), (0x7A6, 0x7B0), (0x7EB, 0x7F5), (0x7FA, 0x7FA), (0x7FD, 0x7FD),
    (0x816, 0x82D), (0x859, 0x85B), (0x888, 0x888), (0x890, 0x891), (0x898, 0x89F),
    (0x8C9, 0x902), (0x93A, 0x93A), (0x93C, 0x93C), (0x941, 0x948), (0x94D, 0x94D),
    (0x951, 0x957), (0x962, 0x963), (0x971, 0x971), (0x981, 0x981), (0x9BC, 0x9BC),
    (0x9C1, 0x9C4), (0x9CD, 0x9CD), (0x9E2, 0x9E3), (0x9FE, 0x9FE), (0xA01, 0xA02),
    (0xA3C, 0xA3C), (0xA41, 0xA42), (0xA47, 0xA48), (0xA4B, 0xA4D), (0xA51, 0xA51),
    (0xA70, 0xA71), (0xA75, 0xA75), (0xA81, 0xA82), (0xABC, 0xABC), (0xAC1, 0xAC5),
    (0xAC7, 0xAC8), (0xACD, 0xACD), (0xAE2, 0xAE3), (0xAFA, 0xAFF), (0xB01, 0xB01),
    (0xB3C, 0xB3C), (0xB3F, 0xB3F), (0xB41, 0xB44), (0xB4D, 0xB4D), (0xB55, 0xB56),
    (0xB62, 0xB63), (0xB82, 0xB82), (0xBC0, 0xBC0), (0xBCD, 0xBCD), (0xC00, 0xC00),
    (0xC04, 0xC04), (0xC3C, 0xC3C), (0xC3E, 0xC40), (0xC46, 0xC48), (0xC4A, 0xC4D),
    (0xC55, 0xC56), (0xC62, 0xC63), (0xC81, 0xC81), (0xCBC, 0xCBC), (0xCBF, 0xCBF),
    (0xCC6, 0xCC6), (0xCCC, 0xCCD), (0xCE2, 0xCE3), (0xD00, 0xD01), (0xD3B, 0xD3C),
    (0xD41, 0xD44), (0xD4D, 0xD4D), (0xD62, 0xD63), (0xD81, 0xD81), (0xDCA, 0xDCA),
    (0xDD2, 0xDD4), (0xDD6, 0xDD6), (0xE31, 0xE31), (0xE34, 0xE3A), (0xE46, 0xE4E),
    (0xEB1, 0xEB1), (0xEB4, 0xEBC), (0xEC6, 0xEC6), (0xEC8, 0xECD), (0xF18, 0xF19),
    (0xF35, 0xF35), (0xF37, 0xF37), (0xF39, 0xF39), (0xF71, 0xF7E), (0xF80, 0xF84),
    (0xF86, 0xF87), (0xF8D, 0xF97), (0xF99, 0xFBC), (0xFC6, 0xFC6), (0x102D, 0x1030),
    (0x1032, 0x1037), (0x1039, 0x103A), (0x103D, 0x103E), (0x1058, 0x1059), (0x105E, 0x1060),
    (0x1071, 0x1074), (0x1082, 0x1082), (0x1085, 0x1086), (0x108D, 0x108D), (0x109D, 0x109D),
    (0x10FC, 0x10FC), (0x135D, 0x135F), (0x1712, 0x1714), (0x1732, 0x1733), (0x1752, 0x1753),
    (0x1772, 0x1773), (0x17B4, 0x17B5), (0x17B7, 0x17BD), (0x17C6, 0x17C6), (0x17C9, 0x17D3),
    (0x17D7, 0x17D7), (0x17DD, 0x17DD), (0x180B, 0x180F), (0x1843, 0x1843), (0x1885, 0x1886),
    (0x18A9, 0x18A9), (0x1920, 0x1922), (0x1927, 0x1928), (0x1932, 0x1932), (0x1939, 0x193B),
    (0x1A17, 0x1A18), (0x1A1B, 0x1A1B), (0x1A56, 0x1A56), (0x1A58, 0x1A5E), (0x1A60, 0x1A60),
    (0x1A62, 0x1A62), (0x1A65, 0x1A6C), (0x1A73, 0x1A7C), (0x1A7F, 0x1A7F), (0x1AA7, 0x1AA7),
    (0x1AB0, 0x1ACE), (0x1B00, 0x1B03), (0x1B34, 0x1B34), (0x1B36, 0x1B3A), (0x1B3C, 0x1B3C),
    (0x1B42, 0x1B42), (0x1B6B, 0x1B73), (0x1B80, 0x1B81), (0x1BA2, 0x1BA5), (0x1BA8, 0x1BA9),
    (0x1BAB, 0x1BAD), (0x1BE6, 0x1BE6), (0x1BE8, 0x1BE9), (0x1BED, 0x1BED), (0x1BEF, 0x1BF1),
    (0x1C2C, 0x1C33), (0x1C36, 0x1C37), (0x1C78, 0x1C7D), (0x1CD0, 0x1CD2), (0x1CD4, 0x1CE0),
    (0x1CE2, 0x1CE8), (0x1CED, 0x1CED), (0x1CF4, 0x1CF4), (0x1CF8, 0x1CF9), (0x1D2C, 0x1D6A),
    (0x1D78, 0x1D78), (0x1D9B, 0x1DFF), (0x1FBD, 0x1FBD), (0x1FBF, 0x1FC1), (0x1FCD, 0x1FCF),
    (0x1FDD, 0x1FDF), (0x1FED, 0x1FEF), (0x1FFD, 0x1FFE), (0x200B, 0x200F), (0x2018, 0x2019),
    (0x2024, 0x2024), (0x2027, 0x2027), (0x202A, 0x202E), (0x2060, 0x2064), (0x2066, 0x206F),
    (0x2071, 0x2071), (0x207F, 0x207F), (0x2090, 0x209C), (0x20D0, 0x20F0), (0x2C7C, 0x2C7D),
    (0x2CEF, 0x2CF1), (0x2D6F, 0x2D6F), (0x2D7F, 0x2D7F), (0x2DE0, 0x2DFF), (0x2E2F, 0x2E2F),
    (0x3005, 0x3005), (0x302A, 0x302D), (0x3031, 0x3035), (0x303B, 0x303B), (0x3099, 0x309E),
    (0x30FC, 0x30FE), (0xA015, 0xA015), (0xA4F8, 0xA4FD), (0xA60C, 0xA60C), (0xA66F, 0xA672),
    (0xA674, 0xA67D), (0xA67F, 0xA67F), (0xA69C, 0xA69F), (0xA6F0, 0xA6F1), (0xA700, 0xA721),
    (0xA770, 0xA770), (0xA788, 0xA78A), (0xA7F2, 0xA7F4), (0xA7F8, 0xA7F9), (0xA802, 0xA802),
    (0xA806, 0xA806), (0xA80B, 0xA80B), (0xA825, 0xA826), (0xA82C, 0xA82C), (0xA8C4, 0xA8C5),
    (0xA8E0, 0xA8F1), (0xA8FF, 0xA8FF), (0xA926, 0xA92D), (0xA947, 0xA951), (0xA980, 0xA982),
    (0xA9B3, 0xA9B3), (0xA9B6, 0xA9B9), (0xA9BC, 0xA9BD), (0xA9CF, 0xA9CF), (0xA9E5, 0xA9E6),
    (0xAA29, 0xAA2E), (0xAA31, 0xAA32), (0xAA35, 0xAA36), (0xAA43, 0xAA43), (0xAA4C, 0xAA4C),
    (0xAA70, 0xAA70), (0xAA7C, 0xAA7C), (0xAAB0, 0xAAB0), (0xAAB2, 0xAAB4), (0xAAB7, 0xAAB8),
    (0xAABE, 0xAABF), (0xAAC1, 0xAAC1), (0xAADD, 0xAADD), (0xAAEC, 0xAAED), (0xAAF3, 0xAAF4),
    (0xAAF6, 0xAAF6), (0xAB5B, 0xAB5F), (0xAB69, 0xAB6B), (0xABE5, 0xABE5), (0xABE8, 0xABE8),
    (0xABED, 0xABED), (0xFB1E, 0xFB1E), (0xFBB2, 0xFBC2), (0xFE00, 0xFE0F), (0xFE13, 0xFE13),
    (0xFE20, 0xFE2F), (0xFE52, 0xFE52), (0xFE55, 0xFE55), (0xFEFF, 0xFEFF), (0xFF07, 0xFF07),
    (0xFF0E, 0xFF0E), (0xFF1A, 0xFF1A), (0xFF3E, 0xFF3E), (0xFF40, 0xFF40), (0xFF70, 0xFF70),
    (0xFF9E, 0xFF9F), (0xFFE3, 0xFFE3), (0xFFF9, 0xFFFB), (0x101FD, 0x101FD), (0x102E0, 0x102E0),
    (0x10376, 0x1037A), (0x10780, 0x10785), (0x10787, 0x107B0), (0x107B2, 0x107BA), (0x10A01, 0x10A03),
    (0x10A05, 0x10A06), (0x10A0C, 0x10A0F), (0x10A38, 0x10A3A), (0x10A3F, 0x10A3F), (0x10AE5, 0x10AE6),
    (0x10D24, 0x10D27), (0x10EAB, 0x10EAC), (0x10F46, 0x10F50), (0x10F82, 0x10F85), (0x11001, 0x11001),
    (0x11038, 0x11046), (0x11070, 0x11070), (0x11073, 0x11074), (0x1107F, 0x11081), (0x110B3, 0x110B6),
    (0x110B9, 0x110BA), (0x110BD, 0x110BD), (0x110C2, 0x110C2), (0x110CD, 0x110CD), (0x11100, 0x11102),
    (0x11127, 0x1112B), (0x1112D, 0x11134), (0x11173, 0x11173), (0x11180, 0x11181), (0x111B6, 0x111BE),
    (0x111C9, 0x111CC), (0x111CF, 0x111CF), (0x1122F, 0x11231), (0x11234, 0x11234), (0x11236, 0x11237),
    (0x1123E, 0x1123E), (0x112DF, 0x112DF), (0x112E3, 0x112EA), (0x11300, 0x11301), (0x1133B, 0x1133C),
    (0x11340, 0x11340), (0x11366, 0x1136C), (0x11370, 0x11374), (0x11438, 0x1143F), (0x11442, 0x11444),
    (0x11446, 0x11446), (0x1145E, 0x1145E), (0x114B3, 0x114B8), (0x114BA, 0x114BA), (0x114BF, 0x114C0),
    (0x114C2, 0x114C3), (0x115B2, 0x115B5), (0x115BC, 0x115BD), (0x115BF, 0x115C0), (0x115DC, 0x115DD),
    (0x11633, 0x1163A), (0x1163D, 0x1163D), (0x1163F, 0x11640), (0x116AB, 0x116AB), (0x116AD, 0x116AD),
    (0x116B0, 0x116B5), (0x116B7, 0x116B7), (0x1171D, 0x1171F), (0x11722, 0x11725), (0x11727, 0x1172B),
    (0x1182F, 0x11837), (0x11839, 0x1183A), (0x1193B, 0x1193C), (0x1193E, 0x1193E), (0x11943, 0x11943),
    (0x119D4, 0x119D7), (0x119DA, 0x119DB), (0x119E0, 0x119E0), (0x11A01, 0x11A0A), (0x11A33, 0x11A38),
    (0x11A3B, 0x11A3E), (0x11A47, 0x11A47), (0x11A51, 0x11A56), (0x11A59, 0x11A5B), (0x11A8A, 0x11A96),
    (0x11A98, 0x11A99), (0x11C30, 0x11C36), (0x11C38, 0x11C3D), (0x11C3F, 0x11C3F), (0x11C92, 0x11CA7),
    (0x11CAA, 0x11CB0), (0x11CB2, 0x11CB3), (0x11CB5, 0x11CB6), (0x11D31, 0x11D36), (0x11D3A, 0x11D3A),
    (0x11D3C, 0x11D3D), (0x11D3F, 0x11D45), (0x11D47, 0x11D47), (0x11D90, 0x11D91), (0x11D95, 0x11D95),
    (0x11D97, 0x11D97), (0x11EF3, 0x11EF4), (0x13430, 0x13438), (0x16AF0, 0x16AF4), (0x16B30, 0x16B36),
    (0x16B40, 0x16B43), (0x16F4F, 0x16F4F), (0x16F8F, 0x16F9F), (0x16FE0, 0x16FE1), (0x16FE3, 0x16FE4),
    (0x1AFF0, 0x1AFF3), (0x1AFF5, 0x1AFFB), (0x1AFFD, 0x1AFFE), (0x1BC9D, 0x1BC9E), (0x1BCA0, 0x1BCA3),
    (0x1CF00, 0x1CF2D), (0x1CF30, 0x1CF46), (0x1D167, 0x1D169), (0x1D173, 0x1D182), (0x1D185, 0x1D18B),
    (0x1D1AA, 0x1D1AD), (0x1D242, 0x1D244), (0x1DA00, 0x1DA36), (0x1DA3B, 0x1DA6C), (0x1DA75, 0x1DA75),
    (0x1DA84, 0x1DA84), (0x1DA9B, 0x1DA9F), (0x1DAA1, 0x1DAAF), (0x1E000, 0x1E006), (0x1E008, 0x1E018),
    (0x1E01B, 0x1E021), (0x1E023, 0x1E024), (0x1E026, 0x1E02A), (0x1E130, 0x1E13D), (0x1E2AE, 0x1E2AE),
    (0x1E2EC, 0x1E2EF), (0x1E8D0, 0x1E8D6), (0x1E944, 0x1E94B), (0x1F3FB, 0x1F3FF), (0xE0001, 0xE0001),
    (0xE0020, 0xE007F), (0xE0100, 0xE01EF) ]

/-- The simple lowercase mappings of the Unicode Character Database, version 14.0 (file
`UnicodeData.txt`), outside Basic Latin. A row `(first, last, step, target)` maps the code
points `first`, `first + step`, ..., `last` to `target`, `target + step`, ... . -/
def lowercaseRows : List (Nat × Nat × Nat × Nat) :=
  [
    (0xC0, 0xD6, 1, 0xE0), (0xD8, 0xDE, 1, 0xF8), (0x100, 0x12E, 2, 0x101),
    (0x132, 0x136, 2, 0x133), (0x139, 0x147, 2, 0x13A), (0x14A, 0x176, 2, 0x14B),
    (0x178, 0x178, 1, 0xFF), (0x179, 0x17D, 2, 0x17A), (0x181, 0x181, 1, 0x253),
    (0x182, 0x184, 2, 0x183), (0x186, 0x186, 1, 0x254), (0x187, 0x187, 1, 0x188),
    (0x189, 0x18A, 1, 0x256), (0x18B, 0x18B, 1, 0x18C), (0x18E, 0x18E, 1, 0x1DD),
    (0x18F, 0x18F, 1, 0x259), (0x190, 0x190, 1, 0x25B), (0x191, 0x191, 1, 0x192),
    (0x193, 0x193, 1, 0x260), (0x194, 0x194, 1, 0x263), (0x196, 0x196, 1, 0x269),
    (0x197, 0x197, 1, 0x268), (0x198, 0x198, 1, 0x199), (0x19C, 0x19C, 1, 0x26F),
    (0x19D, 0x19D, 1, 0x272), (0x19F, 0x19F, 1, 0x275), (0x1A0, 0x1A4, 2, 0x1A1),
    (0x1A6, 0x1A6, 1, 0x280), (0x1A7, 0x1A7, 1, 0x1A8), (0x1A9, 0x1A9, 1, 0x283),
    (0x1AC, 0x1AC, 1, 0x1AD), (0x1AE, 0x1AE, 1, 0x288), (0x1AF, 0x1AF, 1, 0x1B0),
    (0x1B1, 0x1B2, 1, 0x28A), (0x1B3, 0x1B5, 2, 0x1B4), (0x1B7, 0x1B7, 1, 0x292),
    (0x1B8, 0x1B8, 1, 0x1B9), (0x1BC, 0x1BC, 1, 0x1BD), (0x1C4, 0x1C4, 1, 0x1C6),
    (0x1C5, 0x1C5, 1, 0x1C6), (0x1C7, 0x1C7, 1, 0x1C9), (0x1C8, 0x1C8, 1, 0x1C9),
    (0x1CA, 0x1CA, 1, 0x1CC), (0x1CB, 0x1DB, 2, 0x1CC), (0x1DE, 0x1EE, 2, 0x1DF),
    (0x1F1, 0x1F1, 1, 0x1F3), (0x1F2, 0x1F4, 2, 0x1F3), (0x1F6, 0x1F6, 1, 0x195),
    (0x1F7, 0x1F7, 1, 0x1BF), (0x1F8, 0x21E, 2, 0x1F9), (0x220, 0x220, 1, 0x19E),
    (0x222, 0x232, 2, 0x223), (0x23A, 0x23A, 1, 0x2C65), (0x23B, 0x23B, 1, 0x23C),
    (0x23D, 0x23D, 1, 0x19A), (0x23E, 0x23E, 1, 0x2C66), (0x241, 0x241, 1, 0x242),
    (0x243, 0x243, 1, 0x180), (0x244, 0x244, 1, 0x289), (0x245, 0x245, 1, 0x28C),
    (0x246, 0x24E, 2, 0x247), (0x370, 0x372, 2, 0x371), (0x376, 0x376, 1, 0x377),
    (0x37F, 0x37F, 1, 0x3F3), (0x386, 0x386, 1, 0x3AC), (0x388, 0x38A, 1, 0x3AD),
    (0x38C, 0x38C, 1, 0x3CC), (0x38E, 0x38F, 1, 0x3CD), (0x391, 0x3A1, 1, 0x3B1),
    (0x3A3, 0x3AB, 1, 0x3C3), (0x3CF, 0x3CF, 1, 0x3D7), (0x3D8, 0x3EE, 2, 0x3D9),
    (0x3F4, 0x3F4, 1, 0x3B8), (0x3F7, 0x3F7, 1, 0x3F8), (0x3F9, 0x3F9, 1, 0x3F2),
    (0x3FA, 0x3FA, 1, 0x3FB), (0x3FD, 0x3FF, 1, 0x37B), (0x400, 0x40F, 1, 0x450),
    (0x410, 0x42F, 1, 0x430), (0x460, 0x480, 2, 0x461), (0x48A, 0x4BE, 2, 0x48B),
    (0x4C0, 0x4C0, 1, 0x4CF), (0x4C1, 0x4CD, 2, 0x4C2), (0x4D0, 0x52E, 2, 0x4D1),
    (0x531, 0x556, 1, 0x561), (0x10A0, 0x10C5, 1, 0x2D00), (0x10C7, 0x10C7, 1, 0x2D27),
    (0x10CD, 0x10CD, 1, 0x2D2D), (0x13A0, 0x13EF, 1, 0xAB70), (0x13F0, 0x13F5, 1, 0x13F8),
    (0x1C90, 0x1CBA, 1, 0x10D0), (0x1CBD, 0x1CBF, 1, 0x10FD), (0x1E00, 0x1E94, 2, 0x1E01),
    (0x1E9E, 0x1E9E, 1, 0xDF), (0x1EA0, 0x1EFE, 2, 0x1EA1), (0x1F08, 0x1F0F, 1, 0x1F00),
    (0x1F18, 0x1F1D, 1, 0x1F10), (0x1F28, 0x1F2F, 1, 0x1F20), (0x1F38, 0x1F3F, 1, 0x1F30),
    (0x1F48, 0x1F4D, 1, 0x1F40), (0x1F59, 0x1F5F, 2, 0x1F51), (0x1F68, 0x1F6F, 1, 0x1F60),
    (0x1F88, 0x1F8F, 1, 0x1F80), (0x1F98, 0x1F9F, 1, 0x1F90), (0x1FA8, 0x1FAF, 1, 0x1FA0),
    (0x1FB8, 0x1FB9, 1, 0x1FB0), (0x1FBA, 0x1FBB, 1, 0x1F70), (0x1FBC, 0x1FBC, 1, 0x1FB3),
    (0x1FC8, 0x1FCB, 1, 0x1F72), (0x1FCC, 0x1FCC, 1, 0x1FC3), (0x1FD8, 0x1FD9, 1, 0x1FD0),
    (0x1FDA, 0x1FDB, 1, 0x1F76), (0x1FE8, 0x1FE9, 1, 0x1FE0), (0x1FEA, 0x1FEB, 1, 0x1F7A),
    (0x1FEC, 0x1FEC, 1, 0x1FE5), (0x1FF8, 0x1FF9, 1, 0x1F78), (0x1FFA, 0x1FFB, 1, 0x1F7C),
    (0x1FFC, 0x1FFC, 1, 0x1FF3), (0x2126, 0x2126, 1, 0x3C9), (0x212A, 0x212A, 1, 0x6B),
    (0x212B, 0x212B, 1, 0xE5), (0x2132, 0x2132, 1, 0x214E), (0x2160, 0x216F, 1, 0x2170),
    (0x2183, 0x2183, 1, 0x2184), (0x24B6, 0x24CF, 1, 0x24D0), (0x2C00, 0x2C2F, 1, 0x2C30),
    (0x2C60, 0x2C60, 1, 0x2C61), (0x2C62, 0x2C62, 1, 0x26B), (0x2C63, 0x2C63, 1, 0x1D7D),
    (0x2C64, 0x2C64, 1, 0x27D), (0x2C67, 0x2C6B, 2, 0x2C68), (0x2C6D, 0x2C6D, 1, 0x251),
    (0x2C6E, 0x2C6E, 1, 0x271), (0x2C6F, 0x2C6F, 1, 0x250), (0x2C70, 0x2C70, 1, 0x252),
    (0x2C72, 0x2C72, 1, 0x2C73), (0x2C75, 0x2C75, 1, 0x2C76), (0x2C7E, 0x2C7F, 1, 0x23F),
    (0x2C80, 0x2CE2, 2, 0x2C81), (0x2CEB, 0x2CED, 2, 0x2CEC), (0x2CF2, 0x2CF2, 1, 0x2CF3),
    (0xA640, 0xA66C, 2, 0xA641), (0xA680, 0xA69A, 2, 0xA681), (0xA722, 0xA72E, 2, 0xA723),
    (0xA732, 0xA76E, 2, 0xA733), (0xA779, 0xA77B, 2, 0xA77A), (0xA77D, 0xA77D, 1, 0x1D79),
    (0xA77E, 0xA786, 2, 0xA77F), (0xA78B, 0xA78B, 1, 0xA78C), (0xA78D, 0xA78D, 1, 0x265),
    (0xA790, 0xA792, 2, 0xA791), (0xA796, 0xA7A8, 2, 0xA797), (0xA7AA, 0xA7AA, 1, 0x266),
    (0xA7AB, 0xA7AB, 1, 0x25C), (0xA7AC, 0xA7AC, 1, 0x261), (0xA7AD, 0xA7AD, 1, 0x26C),
    (0xA7AE, 0xA7AE, 1, 0x26A), (0xA7B0, 0xA7B0, 1, 0x29E), (0xA7B1, 0xA7B1, 1, 0x287),
    (0xA7B2, 0xA7B2, 1, 0x29D), (0xA7B3, 0xA7B3, 1, 0xAB53), (0xA7B4, 0xA7C2, 2, 0xA7B5),
    (0xA7C4, 0xA7C4, 1, 0xA794), (0xA7C5, 0xA7C5, 1, 0x282), (0xA7C6, 0xA7C6, 1, 0x1D8E),
    (0xA7C7, 0xA7C9, 2, 0xA7C8), (0xA7D0, 0xA7D0, 1, 0xA7D1), (0xA7D6, 0xA7D8, 2, 0xA7D7),
    (0xA7F5, 0xA7F5, 1, 0xA7F6), (0xFF21, 0xFF3A, 1, 0xFF41), (0x10400, 0x10427, 1, 0x10428),
    (0x104B0, 0x104D3, 1, 0x104D8), (0x10570, 0x1057A, 1, 0x10597), (0x1057C, 0x1058A, 1, 0x105A3),
    (0x1058C, 0x10592, 1, 0x105B3), (0x10594, 0x10595, 1, 0x105BB), (0x10C80, 0x10CB2, 1, 0x10CC0),
    (0x118A0, 0x118BF, 1, 0x118C0), (0x16E40, 0x16E5F, 1, 0x16E60), (0x1E900, 0x1E921, 1, 0x1E922) ]

/-- The property Cased of a code point. -/
def isCased (c : Nat) : Bool := inRanges casedRanges c

/-- The property Case_Ignorable of a code point. -/
def isCaseIgnorable (c : Nat) : Bool := inRanges caseIgnorableRanges c

/-- The simple lowercase mapping of a code point. -/
def lowerPoint (c : Nat) : Nat :=
  if c < 0x80 then lowerUnit c
  else
    match lowercaseRows.find? fun r => r.1 ≤ c && c ≤ r.2.1 && (c - r.1) % r.2.2.1 == 0 with
    | some r => r.2.2.2 + (c - r.1)
    | none => c

/-- The operation StringToCodePoints: a leading surrogate followed by a trailing surrogate
is one code point, every other code unit (a lone surrogate too) is a code point itself. -/
def codePoints : Str → List Nat
  | [] => []
  | [c] => [c]
  | hi :: lo :: rest =>
    if 0xD800 ≤ hi ∧ hi ≤ 0xDBFF ∧ 0xDC00 ≤ lo ∧ lo ≤ 0xDFFF then
      (0x10000 + (hi - 0xD800) * 0x400 + (lo - 0xDC00)) :: codePoints rest
    else hi :: codePoints (lo :: rest)

/-- The code units of one code point. -/
def unitsOf (c : Nat) : Str :=
  if c < 0x10000 then [c] else [0xD800 + (c - 0x10000) / 0x400, 0xDC00 + (c - 0x10000) % 0x400]

/-- The operation CodePointsToString. -/
def codeUnits : List Nat → Str
  | [] => []
  | c :: rest => unitsOf c ++ codeUnits rest

/-- Whether the code points that come next, nearest first, are case-ignorable code points
followed by a cased one. It serves both sides of the condition Final_Sigma: for the
preceding context the code points are given from the nearest one backwards. -/
def casedNext (context : List Nat) : Bool :=
  match context.dropWhile isCaseIgnorable with
  | c :: _ => isCased c
  | [] => false

/-- The full lowercase mapping of the code points `rest`; `before` holds the code points
that precede them, the nearest first. `U+0130` maps to `U+0069 U+0307`; `U+03A3` maps to
`U+03C2` in the context Final_Sigma (a cased code point before it and none after it,
case-ignorable code points in between set aside) and to `U+03C3` otherwise; these are the
mappings of `SpecialCasing.txt` that depend on no language. -/
def lowerPoints (before : List Nat) : List Nat → List Nat
  | [] => []
  | c :: rest =>
    (if c = 0x130 then [0x69, 0x307]
     else if c = 0x3A3 then [if casedNext before && !casedNext rest then 0x3C2 else 0x3C3]
     else [lowerPoint c]) ++ lowerPoints (c :: before) rest

/-- The method `String.prototype.toLowerCase`: the Unicode default case conversion of the
string's code points, with the tables of Unicode 14.0. -/
def toLowerCase (s : Str) : Str := codeUnits (lowerPoints [] (codePoints s))

/-- The method `String.prototype.toUpperCase` on the Basic Latin range, where it is exact;
the source applies it to the four store names only. -/
def toUpperCase (s : Str) : Str := s.map upperUnit

/-- The method `String.prototype.includes`: `includes hay needle` tells whether `needle`
occurs in `hay` as a contiguous run of code units. -/
def includes : Str → Str → Bool
  | [], needle => needle.isEmpty
  | c :: cs, needle => needle.isPrefixOf (c :: cs) || includes cs needle

/-! ## Values -/

/-- A JavaScript value as it comes out of `JSON.parse`, or `undefined`. -/
inductive Value where
  | undefined : Value
  | null : Value
  | bool (b : Bool) : Value
  | num (text : Str) : Value
  | str (s : Str) : Value
  | arr (items : List Value) : Value
  | obj (fields : List (Str × Value)) : Value

/-- The property list of an object. It is read like an object literal: when a key is
written twice the last entry is the property's value. -/
abbrev Fields := List (Str × Value)

/-- The Number value of a natural number. -/
def Value.ofNat (n : Nat) : Value := .num (decimal n)

/-- The exceptions the modelled code can raise. -/
inductive JSError where
  | typeError : JSError
  deriving DecidableEq, Repr

/-- ToBoolean: `undefined`, `null`, `false`, `0`, `NaN` and the empty string are falsy. -/
def truthy : Value → Bool
  | .undefined => false
  | .null => false
  | .bool b => b
  | .num t => !(t == str "0" || t == str "NaN")
  | .str s => !s.isEmpty
  | .arr _ => true
  | .obj _ => true

/-- The operator `a || b`. -/
def orElse (a b : Value) : Value := if truthy a then a else b

/-- The value of key `k` in a property list (the last entry for `k`). -/
def lookup (k : Str) : Fields → Option Value
  | [] => none
  | (k', v) :: rest =>
    match lookup k rest with
    | some w => some w
    | none => if k' = k then some v else none

/-- The assignment `o[k] = v` on a property list: an existing property keeps its place and
takes the new value, a new one is added last. -/
def setProp (o : Fields) (k : Str) (v : Value) : Fields :=
  if o.any (fun p => p.1 == k) then o.map (fun p => if p.1 = k then (k, v) else p)
  else o ++ [(k, v)]

/-- The statement `o[k] = v` on an ordinary object. The name `__proto__` reaches the
accessor of `Object.prototype` and creates no own property; every other name is assigned
as `setProp` does. -/
def assign (o : Fields) (k : Str) (v : Value) : Fields :=
  if k = str "__proto__" then o else setProp o k v

/-- Index keys `start`, `start + 1`, ... paired with the items. -/
def indexed : Nat → List Value → Fields
  | _, [] => []
  | i, v :: vs => (decimal i, v) :: indexed (i + 1) vs

/-- The own enumerable string-keyed properties of a value: the fields of an object, the
indexed elements of an array, the indexed code units of a string; none for the rest. -/
def ownProps : Value → Fields
  | .obj fields => fields
  | .arr items => indexed 0 items
  | .str s => indexed 0 (s.map fun c => Value.str [c])
  | _ => []

/-- The read `v.k` for the property names the source reads (`type`, `payload`, `key`,
`labels`, `properties`, `relationships`): none of them is inherited from a prototype, so
the read is the own property or `undefined`; on `undefined` and `null` it throws. -/
def getProp (v : Value) (k : Str) : Except JSError Value :=
  match v with
  | .undefined => .error .typeError
  | .null => .error .typeError
  | _ => .ok ((lookup k (ownProps v)).getD .undefined)

/-- Object spread `{ ...base, ...src }` where `base` is the part of the literal written
before the spread: every own property of `src` is assigned in order. -/
def spread (base : Fields) (src : Value) : Fields :=
  (ownProps src).foldl (fun acc p => setProp acc p.1 p.2) base

mutual
/-- ToString, as a template literal applies it. A plain object prints as
`[object Object]` unless it has an own `toString` property, which (not being callable)
makes the conversion throw; an array prints its elements joined by commas. -/
def toStringJS : Value → Except JSError Str
  | .undefined => .ok (str "undefined")
  | .null => .ok (str "null")
  | .bool b => .ok (if b then str "true" else str "false")
  | .num t => .ok t
  | .str s => .ok s
  | .arr items => joinJS items
  | .obj fields =>
    if (lookup (str "toString") fields).isSome then .error .typeError
    else .ok (str "[object Object]")
/-- The method `Array.prototype.join` with the comma separator: `undefined` and `null`
elements print as the empty string. -/
def joinJS : List Value → Except JSError Str
  | [] => .ok []
  | [v] => elementJS v
  | v :: w :: rest =>
    match elementJS v, joinJS (w :: rest) with
    | .ok a, .ok b => .ok (a ++ str "," ++ b)
    | .error e, _ => .error e
    | _, .error e => .error e
/-- One element of a joined array. -/
def elementJS : Value → Except JSError Str
  | .undefined => .ok []
  | .null => .ok []
  | .bool b => .ok (if b then str "true" else str "false")
  | .num t => .ok t
  | .str s => .ok s
  | .arr items => joinJS items
  | .obj fields =>
    if (lookup (str "toString") fields).isSome then .error .typeError
    else .ok (str "[object Object]")
end

/-! ## The process state -/

/-- One call of the logger (`backend/utils/logger.js`), which prints it to the console. -/
inductive LogEvent where
  | info (message : Str) : LogEvent
  | success (message : Str) : LogEvent
  | warn (message : Str) : LogEvent
  | error (message : Str) (thrown : JSError) : LogEvent
  | route (dataType database reason : Str) : LogEvent

/-- The field `PolyglotStore.databases`: three sequences and the cache mapping. -/
structure Databases where
  postgresql : List Value
  mongodb : List Value
  redis : Fields
  neo4j : List Value

/-- The field `PolyglotStore.counters`. -/
structure Counters where
  postgresql : Nat
  mongodb : Nat
  neo4j : Nat

/-- The process state: the store object and the console. -/
structure World where
  databases : Databases
  counters : Counters
  console : List LogEvent

/-- The store as the module creates it, with nothing logged yet. -/
def World.initial : World :=
  { databases := { postgresql := [], mongodb := [], redis := [], neo4j := [] }
    counters := { postgresql := 1, mongodb := 1, neo4j := 1 }
    console := [] }

/-- What a call leaves behind: the value it returns or the exception it throws, and the
state at that moment. -/
abbrev Outcome := Except JSError Value × World

/-! ## `PolyglotStore` -/

/-- The function `PolyglotStore.storeInPostgreSQL(data)`; `createdAt` and `updatedAt` are
the two clock readings it takes. The record is pushed before the log message is built, so
a failure of the template literal leaves the record in the store. -/
def storeInPostgreSQL (w : World) (createdAt updatedAt : Str) (data : Value) : Outcome :=
  let record : Fields :=
    spread [(str "id", Value.ofNat w.counters.postgresql),
            (str "created_at", .str createdAt),
            (str "updated_at", .str updatedAt)] data
  let w₁ : World :=
    { w with
      counters := { w.counters with postgresql := w.counters.postgresql + 1 }
      databases := { w.databases with postgresql := w.databases.postgresql ++ [.obj record] } }
  match toStringJS ((lookup (str "id") record).getD .undefined) with
  | .error e => (.error e, w₁)
  | .ok shown =>
    (.ok (.obj record),
     { w₁ with console := w₁.console ++ [.success (str "Stored in PostgreSQL with ID: " ++ shown)] })

/-- The function `PolyglotStore.storeInMongoDB(data)`. -/
def storeInMongoDB (w : World) (createdAt updatedAt : Str) (data : Value) : Outcome :=
  let document : Fields :=
    spread [(str "_id", .str (str "doc_" ++ decimal w.counters.mongodb)),
            (str "createdAt", .str createdAt),
            (str "updatedAt", .str updatedAt)] data
  let w₁ : World :=
    { w with
      counters := { w.counters with mongodb := w.counters.mongodb + 1 }
      databases := { w.databases with mongodb := w.databases.mongodb ++ [.obj document] } }
  match toStringJS ((lookup (str "_id") document).getD .undefined) with
  | .error e => (.error e, w₁)
  | .ok shown =>
    (.ok (.obj document),
     { w₁ with console := w₁.console ++ [.success (str "Stored in MongoDB with _id: " ++ shown)] })

/-- The function `PolyglotStore.storeInRedis(key, data)`; `nowMs` is the reading of
`Date.now()` and `storedAt` the one of `new Date().toISOString()`. The key is converted
to a property key when the entry is assigned, before anything is changed. -/
def storeInRedis (w : World) (nowMs : Nat) (storedAt : Str) (key data : Value) : Outcome :=
  let cacheKey : Value := orElse key (.str (str "cache_" ++ decimal nowMs))
  let entry : Fields :=
    [(str "value", data), (str "storedAt", .str storedAt), (str "ttl", .num (str "3600"))]
  match toStringJS cacheKey with
  | .error e => (.error e, w)
  | .ok name =>
    (.ok (.obj (spread [(str "key", cacheKey)] (.obj entry))),
     { w with
       databases := { w.databases with redis := assign w.databases.redis name (.obj entry) }
       console := w.console ++ [.success (str "Stored in Redis with key: " ++ name)] })

/-- The function `PolyglotStore.storeInNeo4j(data)`. The counter is advanced while the
node literal is being evaluated, before `data.labels` is read. -/
def storeInNeo4j (w : World) (createdAt : Str) (data : Value) : Outcome :=
  let nodeId : Str := str "node_" ++ decimal w.counters.neo4j
  let w₁ : World := { w with counters := { w.counters with neo4j := w.counters.neo4j + 1 } }
  match getProp data (str "labels"), getProp data (str "properties"),
        getProp data (str "relationships") with
  | .ok labels, .ok properties, .ok relationships =>
    let node : Value :=
      .obj [(str "nodeId", .str nodeId),
            (str "labels", orElse labels (.arr [.str (str "Entity")])),
            (str "properties", orElse properties data),
            (str "relationships", orElse relationships (.arr [])),
            (str "createdAt", .str createdAt)]
    (.ok node,
     { w₁ with
       databases := { w₁.databases with neo4j := w₁.databases.neo4j ++ [node] }
       console := w₁.console ++ [.success (str "Stored in Neo4j with nodeId: " ++ nodeId)] })
  | .error e, _, _ => (.error e, w₁)
  | _, .error e, _ => (.error e, w₁)
  | _, _, .error e => (.error e, w₁)

/-- The number `Object.keys(o).length` of a property list: its distinct keys. -/
def keyCount (o : Fields) : Nat := (o.map Prod.fst).dedup.length

/-- The function `PolyglotStore.getAllStorage()`; it reads the state and changes nothing. -/
def getAllStorage (w : World) : Value :=
  .obj [(str "postgresql",
          .obj [(str "name", .str (str "PostgreSQL")),
                (str "type", .str (str "Relational/Transactional")),
                (str "recordCount", Value.ofNat w.databases.postgresql.length),
                (str "records", .arr w.databases.postgresql)]),
        (str "mongodb",
          .obj [(str "name", .str (str "MongoDB")),
                (str "type", .str (str "Document Store")),
                (str "documentCount", Value.ofNat w.databases.mongodb.length),
                (str "documents", .arr w.databases.mongodb)]),
        (str "redis",
          .obj [(str "name", .str (str "Redis")),
                (str "type", .str (str "Cache/Key-Value")),
                (str "keyCount", Value.ofNat (keyCount w.databases.redis)),
                (str "entries", .obj w.databases.redis)]),
        (str "neo4j",
          .obj [(str "name", .str (str "Neo4j")),
                (str "type", .str (str "Graph Database")),
                (str "nodeCount", Value.ofNat w.databases.neo4j.length),
                (str "nodes", .arr w.databases.neo4j)])]

/-- The function `PolyglotStore.clearAll()`. -/
def clearAll (w : World) : World :=
  { databases := { postgresql := [], mongodb := [], redis := [], neo4j := [] }
    counters := { postgresql := 1, mongodb := 1, neo4j := 1 }
    console := w.console ++ [.info (str "All storage cleared")] }

/-! ## `RouteEngine` -/

/-- One entry of `RouteEngine.routingRules`. -/
structure RuleConfig where
  types : List Str
  reason : Str

/-- The table `RouteEngine.routingRules`, in the order `Object.entries` lists it. -/
def routingRules : List (Str × RuleConfig) :=
  [ (str "postgresql",
      { types := [str "transaction", str "transactional", str "relational", str "sql",
                  str "financial", str "order", str "payment", str "account", str "user"]
        reason := str "ACID compliance required for transactional integrity" }),
    (str "mongodb",
      { types := [str "document", str "json", str "content", str "article", str "post",
                  str "profile", str "log", str "event", str "metadata"]
        reason := str "Flexible schema for unstructured document storage" }),
    (str "redis",
      { types := [str "cache", str "session", str "token", str "temp", str "temporary",
                  str "fast", str "realtime", str "counter", str "rate"]
        reason := str "In-memory speed for cache and session data" }),
    (str "neo4j",
      { types := [str "graph", str "relationship", str "network", str "connection",
                  str "social", str "recommendation", str "path", str "link", str "friend"]
        reason := str "Graph traversal for relationship-heavy queries" }) ]

/-- The object `analyzeAndRoute` returns. -/
structure Decision where
  database : Str
  reason : Str
  dataType : Str
  deriving DecidableEq

/-- The initial value of `reason` in `analyzeAndRoute`. -/
def defaultReason : Str :=
  str "Default routing - PostgreSQL provides safe transactional guarantees"

/-- The test of the `some` callback in `analyzeAndRoute`. -/
def ruleMatches (dataType : Str) (config : RuleConfig) : Bool :=
  config.types.any fun type => includes dataType type || includes type dataType

/-- Lines 43 to 52 of `analyzeAndRoute`: `targetDb` and `reason` after the loop over
`Object.entries(this.routingRules)`, which stops at the first rule that matches. -/
def selectStore (dataType : Str) : Str × Str :=
  match routingRules.find? (fun rule => ruleMatches dataType rule.2) with
  | some rule => (rule.1, rule.2.reason)
  | none => (str "postgresql", defaultReason)

/-- The function `RouteEngine.analyzeAndRoute(data)`. A `type` that is truthy and not a
string has no `toLowerCase` method, so the call throws. -/
def analyzeAndRoute (w : World) (data : Value) : Except JSError (Decision × World) :=
  match getProp data (str "type") with
  | .error e => .error e
  | .ok type =>
    match orElse type (.str (str "unknown")) with
    | .str s =>
      let dataType := trim (toLowerCase s)
      let chosen := selectStore dataType
      .ok ({ database := chosen.1, reason := chosen.2, dataType := dataType },
           { w with console := w.console ++ [.route dataType (toUpperCase chosen.1) chosen.2] })
    | _ => .error .typeError

/-- The function `RouteEngine.getDatabaseDisplayName(db)`: `names[db] || db`. -/
def getDatabaseDisplayName (db : Str) : Str :=
  if db = str "postgresql" then str "PostgreSQL"
  else if db = str "mongodb" then str "MongoDB"
  else if db = str "redis" then str "Redis"
  else if db = str "neo4j" then str "Neo4j"
  else db

/-- The expression `s.charAt(0).toUpperCase() + s.slice(1)`. -/
def capitalize (s : Str) : Str := toUpperCase (s.take 1) ++ s.drop 1

/-- The clock readings one call of `routeAndStore` takes: `nowMs` is `Date.now()` in
`storeInRedis`, `first` and `second` are the readings of `new Date().toISOString()` inside
the adapter in the order they are taken (the graph and cache adapters take only the
first), `timestamp` is the reading for the response. -/
structure Readings where
  nowMs : Nat
  first : Str
  second : Str
  timestamp : Str

/-- The function `RouteEngine.routeAndStore(data)`. -/
def routeAndStore (w : World) (clock : Readings) (data : Value) : Outcome :=
  match analyzeAndRoute w data with
  | .error e => (.error e, w)
  | .ok (routing, w₁) =>
    match getProp data (str "payload") with
    | .error e => (.error e, w₁)
    | .ok field =>
      let payload := orElse field data
      let stored : Outcome :=
        if routing.database = str "postgresql" then
          storeInPostgreSQL w₁ clock.first clock.second payload
        else if routing.database = str "mongodb" then
          storeInMongoDB w₁ clock.first clock.second payload
        else if routing.database = str "redis" then
          match getProp data (str "key"), getProp payload (str "key") with
          | .ok explicit, .ok embedded =>
            storeInRedis w₁ clock.nowMs clock.first (orElse (orElse explicit embedded) .null)
              payload
          | .error e, _ => (.error e, w₁)
          | _, .error e => (.error e, w₁)
        else if routing.database = str "neo4j" then
          storeInNeo4j w₁ clock.first payload
        else
          storeInPostgreSQL w₁ clock.first clock.second payload
      match stored with
      | (.error e, w₂) => (.error e, w₂)
      | (.ok record, w₂) =>
        (.ok (.obj [(str "success", .bool true),
                    (str "routedTo", .str (capitalize routing.database)),
                    (str "routedToDisplay", .str (getDatabaseDisplayName routing.database)),
                    (str "reason", .str routing.reason),
                    (str "dataType", .str routing.dataType),
                    (str "stored", .bool true),
                    (str "record", record),
                    (str "timestamp", .str clock.timestamp)]),
         w₂)

/-! ## The ingest endpoint of `backend/server.js` -/

/-- What a handler sends: the status code and the JSON body. -/
structure Response where
  status : Nat
  body : Value

/-- The rendering of the difference `finish - start` of two readings of `Date.now()`. -/
def elapsed (start finish : Nat) : Str :=
  if start ≤ finish then decimal (finish - start) else str "-" ++ decimal (start - finish)

/-- The handler of `POST /api/ingest` (lines 72 to 109), applied to the parsed body.
`startMs` and `endMs` are its two readings of `Date.now()`; `message` gives the text the
JavaScript engine puts in `error.message`, which the language leaves to the engine. The
request-logging middleware that runs before the handler is not part of it. -/
def ingest (w : World) (clock : Readings) (startMs endMs : Nat) (message : JSError → Str)
    (body : Value) : Response × World :=
  if !truthy body || (ownProps body).isEmpty then
    ({ status := 400
       body := .obj [(str "success", .bool false),
                     (str "error", .str (str "Request body is required")),
                     (str "example",
                       .obj [(str "type", .str (str "transaction")),
                             (str "payload",
                               .obj [(str "amount", .num (str "100")),
                                     (str "currency", .str (str "USD"))])])] },
     { w with console := w.console ++ [.warn (str "Empty request body received")] })
  else
    match routeAndStore w clock body with
    | (.ok result, w₁) =>
      match toStringJS ((lookup (str "routedToDisplay") (ownProps result)).getD .undefined) with
      | .ok display =>
        ({ status := 200
           body := .obj (setProp (ownProps result) (str "responseTimeMs")
                          (.num (elapsed startMs endMs))) },
         { w₁ with console := w₁.console ++
            [.success (str "Data ingested successfully → " ++ display)] })
      | .error e =>
        ({ status := 500
           body := .obj [(str "success", .bool false),
                         (str "error", .str (str "Internal server error")),
                         (str "message", .str (message e))] },
         { w₁ with console := w₁.console ++ [.error (str "Ingestion failed") e] })
    | (.error e, w₁) =>
      ({ status := 500
         body := .obj [(str "success", .bool false),
                       (str "error", .str (str "Internal server error")),
                       (str "message", .str (message e))] },
       { w₁ with console := w₁.console ++ [.error (str "Ingestion failed") e] })

/-! ## The demo endpoint of `backend/server.js` -/

/-- The array `demoData` of the handler of `POST /api/demo`. -/
def demoData : List Value :=
  [ .obj [(str "type", .str (str "transaction")),
          (str "payload",
            .obj [(str "orderId", .str (str "ORD-001")), (str "amount", .num (str "299.99")),
                  (str "currency", .str (str "USD")), (str "status", .str (str "completed"))])],
    .obj [(str "type", .str (str "transaction")),
          (str "payload",
            .obj [(str "orderId", .str (str "ORD-002")), (str "amount", .num (str "149.5")),
                  (str "currency", .str (str "USD")), (str "status", .str (str "pending"))])],
    .obj [(str "type", .str (str "document")),
          (str "payload",
            .obj [(str "title", .str (str "Product Catalog")),
                  (str "category", .str (str "Electronics")),
                  (str "items", .num (str "1500"))])],
    .obj [(str "type", .str (str "document")),
          (str "payload",
            .obj [(str "title", .str (str "User Profile")), (str "userId", .str (str "USR-123")),
                  (str "preferences", .obj [(str "theme", .str (str "dark"))])])],
    .obj [(str "type", .str (str "cache")), (str "key", .str (str "session_abc123")),
          (str "payload",
            .obj [(str "userId", .str (str "USR-123")),
                  (str "token", .str (str "jwt_token_here")),
                  (str "expires", .str (str "1h"))])],
    .obj [(str "type", .str (str "cache")), (str "key", .str (str "rate_limit_api")),
          (str "payload",
            .obj [(str "requests", .num (str "95")), (str "limit", .num (str "100")),
                  (str "window", .str (str "1m"))])],
    .obj [(str "type", .str (str "graph")),
          (str "payload",
            .obj [(str "labels", .arr [.str (str "User")]),
                  (str "properties",
                    .obj [(str "name", .str (str "Alice")), (str "id", .str (str "USR-001"))]),
                  (str "relationships",
                    .arr [.obj [(str "type", .str (str "FOLLOWS")),
                                (str "target", .str (str "USR-002"))]])])],
    .obj [(str "type", .str (str "graph")),
          (str "payload",
            .obj [(str "labels", .arr [.str (str "User")]),
                  (str "properties",
                    .obj [(str "name", .str (str "Bob")), (str "id", .str (str "USR-002"))]),
                  (str "relationships",
                    .arr [.obj [(str "type", .str (str "FOLLOWS")),
                                (str "target", .str (str "USR-001"))]])])] ]

/-- The expression `items.map(data => RouteEngine.routeAndStore(data))`: the calls are made
in order, the `i`-th one with the clock readings `clocks i`, and the first one that throws
ends the map. -/
def routeAll (clocks : Nat → Readings) : Nat → World → List Value →
    Except JSError (List Value) × World
  | _, w, [] => (.ok [], w)
  | i, w, data :: rest =>
    match routeAndStore w (clocks i) data with
    | (.error e, w₁) => (.error e, w₁)
    | (.ok result, w₁) =>
      match routeAll clocks (i + 1) w₁ rest with
      | (.error e, w₂) => (.error e, w₂)
      | (.ok results, w₂) => (.ok (result :: results), w₂)

/-- The handler of `POST /api/demo` (lines 163 to 199); `timestamp` is the clock reading
for the response. -/
def demo (w : World) (clocks : Nat → Readings) (timestamp : Str) : Response × World :=
  match routeAll clocks 0 (clearAll w) demoData with
  | (.ok results, w₁) =>
    ({ status := 200
       body := .obj [(str "success", .bool true),
                     (str "message", .str (str "Demo data loaded")),
                     (str "itemsLoaded", Value.ofNat results.length),
                     (str "timestamp", .str timestamp)] },
     { w₁ with console := w₁.console ++ [.success (str "Demo data loaded successfully")] })
  | (.error e, w₁) =>
    ({ status := 500
       body := .obj [(str "success", .bool false),
                     (str "error", .str (str "Failed to load demo data"))] },
     { w₁ with console := w₁.console ++ [.error (str "Failed to load demo data") e] })

/-! ## The routing view of the front end (`js/routing.js`) -/

/-- The pairs `(dataTypes[i], targets[i])` among which `Routing.simulateRequest` picks one. -/
def simulateRequestPairs : List (Str × Str) :=
  List.zip
    [str "Financial Transaction", str "User Profile", str "Session Data",
     str "Relationship Query"]
    [str "postgresql", str "mongodb", str "redis", str "neo4j"]

/-- The `type` and `target` of the entries `Routing.populateRoutingLog` writes. -/
def populateRoutingLogEntries : List (Str × Str) :=
  [ (str "Financial Transaction", str "PostgreSQL"),
    (str "User Session", str "Redis"),
    (str "Profile Update", str "MongoDB"),
    (str "Friend Request", str "Neo4j"),
    (str "Payment Record", str "PostgreSQL"),
    (str "Cache Miss", str "Redis"),
    (str "Document Query", str "MongoDB") ]

/-! ## Sequences of store calls -/

/-- One call of a function of `PolyglotStore`, with the clock readings it takes. -/
inductive Call where
  | storeInPostgreSQL (createdAt updatedAt : Str) (data : Value) : Call
  | storeInMongoDB (createdAt updatedAt : Str) (data : Value) : Call
  | storeInRedis (nowMs : Nat) (storedAt : Str) (key data : Value) : Call
  | storeInNeo4j (createdAt : Str) (data : Value) : Call
  | getAllStorage : Call
  | clearAll : Call

/-- The state after one call (whether it returned or threw). -/
def Call.run (w : World) : Call → World
  | .storeInPostgreSQL createdAt updatedAt data =>
    (PolyStoreX.storeInPostgreSQL w createdAt updatedAt data).2
  | .storeInMongoDB createdAt updatedAt data =>
    (PolyStoreX.storeInMongoDB w createdAt updatedAt data).2
  | .storeInRedis nowMs storedAt key data =>
    (PolyStoreX.storeInRedis w nowMs storedAt key data).2
  | .storeInNeo4j createdAt data => (PolyStoreX.storeInNeo4j w createdAt data).2
  | .getAllStorage => w
  | .clearAll => PolyStoreX.clearAll w

/-- The state after a sequence of calls, made one after the other. -/
def runCalls (w : World) (calls : List Call) : World := calls.foldl Call.run w

/-- Whether the payload of a call is an actual value: `storeInNeo4j` reads properties of
its payload, which `undefined` and `null` do not have. -/
def Call.hasPayload : Call → Bool
  | .storeInNeo4j _ .undefined => false
  | .storeInNeo4j _ .null => false
  | _ => true

/-- Whether a call is `clearAll`. -/
def Call.isClear : Call → Bool
  | .clearAll => true
  | _ => false

/-! ## Vocabulary of the statements -/

/-- A rule matches a normalized type when one of its keywords occurs in the type or the
type occurs in one of its keywords. -/
def Matches (dataType : Str) (config : RuleConfig) : Prop :=
  ∃ k ∈ config.types, k <:+: dataType ∨ dataType <:+: k

/-- The request `{ type: t }`. -/
def typed (t : Str) : Value := .obj [(str "type", .str t)]

/-- The payload `routeAndStore` hands to the adapter: `data.payload || data`. -/
def payloadOf (data : Value) : Value :=
  orElse ((lookup (str "payload") (ownProps data)).getD .undefined) data

/-- The key a cache write of `routeAndStore` resolves to: the request's `key` when it is
truthy, otherwise the payload's `key` when that is truthy, otherwise the generated
`cache_<nowMs>`. -/
def resolvedKey (nowMs : Nat) (data : Value) : Value :=
  if truthy ((lookup (str "key") (ownProps data)).getD .undefined) then
    (lookup (str "key") (ownProps data)).getD .undefined
  else if truthy ((lookup (str "key") (ownProps (payloadOf data))).getD .undefined) then
    (lookup (str "key") (ownProps (payloadOf data))).getD .undefined
  else .str (str "cache_" ++ decimal nowMs)

/-- The entry `storeInRedis` builds: `{ value, storedAt, ttl: 3600 }`. -/
def cacheEntry (data : Value) (storedAt : Str) : Value :=
  .obj [(str "value", data), (str "storedAt", .str storedAt), (str "ttl", .num (str "3600"))]

/-- Each of the three counters is the length of its own sequence plus one. -/
def CountersMatch (w : World) : Prop :=
  w.counters.postgresql = w.databases.postgresql.length + 1 ∧
  w.counters.mongodb = w.databases.mongodb.length + 1 ∧
  w.counters.neo4j = w.databases.neo4j.length + 1

/-- The normalized type of a string type `t`: `(t || 'unknown').toLowerCase().trim()`. -/
def normalizeType (t : Str) : Str :=
  trim (toLowerCase (if t = [] then str "unknown" else t))

/-! ## Lemmas on strings and the rule table -/

theorem includes_iff (hay needle : Str) : includes hay needle = true ↔ needle <:+: hay := by
  induction hay with
  | nil => simp [includes, List.isEmpty_iff]
  | cons c cs ih =>
    rw [includes, Bool.or_eq_true, ih, List.infix_cons_iff, List.isPrefixOf_iff_prefix]

theorem ruleMatches_iff (dataType : Str) (config : RuleConfig) :
    ruleMatches dataType config = true ↔ Matches dataType config := by
  simp [ruleMatches, Matches, includes_iff]

theorem ruleMatches_false_iff (dataType : Str) (config : RuleConfig) :
    ruleMatches dataType config = false ↔ ¬ Matches dataType config := by
  rw [← ruleMatches_iff]; simp

theorem find?_first {α : Type} (p : α → Bool) (pre post : List α) (r : α)
    (hpre : ∀ a ∈ pre, p a = false) (hr : p r = true) :
    (pre ++ r :: post).find? p = some r := by
  induction pre with
  | nil => simp [hr]
  | cons a as ih =>
    have ha : p a = false := hpre a (by simp)
    simp [List.find?_cons, ha, ih (fun b hb => hpre b (by simp [hb]))]

theorem split_unique {α β : Type} (f : α → β) :
    ∀ (pre as post bs : List α) (r r' : α),
      ((pre ++ r :: post).map f).Nodup → pre ++ r :: post = as ++ r' :: bs → f r = f r' →
      pre = as := by
  intro pre
  induction pre with
  | nil =>
    intro as post bs r r' hnd heq hf
    cases as with
    | nil => rfl
    | cons a as' =>
      exfalso
      simp only [List.nil_append, List.cons_append, List.cons.injEq] at heq
      obtain ⟨h1, h2⟩ := heq
      subst h1 h2
      simp only [List.nil_append, List.map_cons, List.nodup_cons, List.map_append,
        List.mem_append, List.mem_cons, List.mem_map] at hnd
      exact hnd.1 (Or.inr (Or.inl hf))
  | cons x pre' ih =>
    intro as post bs r r' hnd heq hf
    cases as with
    | nil =>
      exfalso
      simp only [List.nil_append, List.cons_append, List.cons.injEq] at heq
      obtain ⟨h1, h2⟩ := heq
      subst h1 h2
      simp only [List.cons_append, List.map_cons, List.nodup_cons, List.map_append,
        List.mem_append, List.mem_cons, List.mem_map] at hnd
      exact hnd.1 (Or.inr (Or.inl hf.symm))
    | cons a as' =>
      simp only [List.cons_append, List.cons.injEq] at heq
      obtain ⟨h1, h2⟩ := heq
      subst h1
      simp only [List.cons_append, List.map_cons, List.nodup_cons] at hnd
      rw [ih as' post bs r r' hnd.2 h2 hf]

theorem routingRules_names :
    routingRules.map Prod.fst = [str "postgresql", str "mongodb", str "redis", str "neo4j"] :=
  rfl

theorem routingRules_names_nodup : (routingRules.map Prod.fst).Nodup := by
  rw [routingRules_names]; decide

theorem selectStore_first (dataType : Str) (pre post : List (Str × RuleConfig))
    (rule : Str × RuleConfig) (hsplit : routingRules = pre ++ rule :: post)
    (hrule : Matches dataType rule.2) (hpre : ∀ p ∈ pre, ¬ Matches dataType p.2) :
    selectStore dataType = (rule.1, rule.2.reason) := by
  unfold selectStore
  rw [hsplit, find?_first _ pre post rule
    (fun a ha => (ruleMatches_false_iff _ _).2 (hpre a ha)) ((ruleMatches_iff _ _).2 hrule)]

theorem selectStore_none (dataType : Str)
    (h : ∀ rule ∈ routingRules, ¬ Matches dataType rule.2) :
    selectStore dataType = (str "postgresql", defaultReason) := by
  unfold selectStore
  have : routingRules.find? (fun rule => ruleMatches dataType rule.2) = none := by
    rw [List.find?_eq_none]
    intro x hx hm
    exact h x hx ((ruleMatches_iff _ _).1 hm)
  rw [this]

theorem selectStore_earlier (dataType : Str) (pre post : List (Str × RuleConfig))
    (rule : Str × RuleConfig) (hsplit : routingRules = pre ++ rule :: post)
    (hdb : (selectStore dataType).1 = rule.1) :
    ∀ p ∈ pre, ¬ Matches dataType p.2 := by
  unfold selectStore at hdb
  cases hfind : routingRules.find? (fun rule => ruleMatches dataType rule.2) with
  | none =>
    intro p hp hm
    rw [List.find?_eq_none] at hfind
    exact hfind p (by rw [hsplit]; simp [hp]) ((ruleMatches_iff _ _).2 hm)
  | some r' =>
    rw [hfind] at hdb
    obtain ⟨_, as, bs, has, hnone⟩ := List.find?_eq_some.1 hfind
    have hnd := routingRules_names_nodup
    rw [hsplit] at hnd has
    have hpre : pre = as := split_unique Prod.fst pre as post bs rule r' hnd has hdb.symm
    intro p hp hm
    have := hnone p (hpre ▸ hp)
    simp [(ruleMatches_iff _ _).2 hm] at this

theorem orElse_str (t : Str) (d : Value) :
    orElse (.str t) d = if t = [] then d else .str t := by
  cases t <;> simp [orElse, truthy]

theorem analyzeAndRoute_typed (w : World) (t : Str) :
    analyzeAndRoute w (typed t) =
      .ok ({ database := (selectStore (normalizeType t)).1
             reason := (selectStore (normalizeType t)).2
             dataType := normalizeType t },
           { w with console := w.console ++
              [.route (normalizeType t) (toUpperCase (selectStore (normalizeType t)).1)
                (selectStore (normalizeType t)).2] }) := by
  simp only [analyzeAndRoute, typed, getProp, ownProps, lookup, normalizeType, orElse_str,
    Option.getD, if_true]
  split_ifs with h <;> rfl

/-! ## The routing decision -/

theorem keywords_select_own_store :
    ∀ rule ∈ routingRules, ∀ k ∈ rule.2.types,
      normalizeType k = k ∧ selectStore k = (rule.1, rule.2.reason) ∧ rule.2.reason ≠ [] := by
  decide

theorem keywords_disjoint_across_rules :
    routingRules.Pairwise fun p r =>
      ∀ K ∈ p.2.types, ∀ k ∈ r.2.types, includes K k = false := by
  decide

/-- C1. For every string type `t`, `analyzeAndRoute({type: t})` returns a decision. Its
`dataType` is the normalized type. Whenever a rule of the table (listed in the order
postgresql, mongodb, redis, neo4j) matches the normalized type and no rule before it does,
the decision's database is that rule's store and its reason is that rule's reason; and if
the decision's database is a rule's store, no rule before that rule matches. -/
theorem C1_analyzeAndRoute_first_match (w : World) (t : Str) :
    ∃ d w', analyzeAndRoute w (typed t) = .ok (d, w') ∧
      d.dataType = normalizeType t ∧
      routingRules.map Prod.fst = [str "postgresql", str "mongodb", str "redis", str "neo4j"] ∧
      (∀ pre rule post, routingRules = pre ++ rule :: post →
        Matches d.dataType rule.2 → (∀ p ∈ pre, ¬ Matches d.dataType p.2) →
        d.database = rule.1 ∧ d.reason = rule.2.reason) ∧
      (∀ pre rule post, routingRules = pre ++ rule :: post → d.database = rule.1 →
        ∀ p ∈ pre, ¬ Matches d.dataType p.2) := by
  refine ⟨_, _, analyzeAndRoute_typed w t, rfl, rfl, ?_, ?_⟩
  · intro pre rule post hsplit hrule hpre
    have h := selectStore_first (normalizeType t) pre post rule hsplit hrule hpre
    exact ⟨congrArg Prod.fst h, congrArg Prod.snd h⟩
  · intro pre rule post hsplit hdb
    exact selectStore_earlier (normalizeType t) pre post rule hsplit hdb

/-- C1 at the type `Session`: the first two rules do not match `session`, the third
does, and the decision is redis with the redis reason. -/
theorem C1_analyzeAndRoute_first_match_witness :
    ∃ d w', analyzeAndRoute World.initial (typed (str "Session")) = .ok (d, w') ∧
      d.dataType = str "session" ∧ d.database = str "redis" ∧
      d.reason = str "In-memory speed for cache and session data" := by
  obtain ⟨d, w', hrun, hdt, _, hfirst, _⟩ :=
    C1_analyzeAndRoute_first_match World.initial (str "Session")
  have hn : d.dataType = str "session" := by rw [hdt]; decide
  refine ⟨d, w', hrun, hn, ?_⟩
  rw [hn] at hfirst
  have h := hfirst (routingRules.take 2) (str "redis", _) (routingRules.drop 3) rfl
    ((ruleMatches_iff _ _).1 (by decide))
    (fun p hp => (ruleMatches_false_iff _ _).1
      ((by decide : ∀ p ∈ routingRules.take 2, ruleMatches (str "session") p.2 = false) p hp))
  exact h

/-- C2. The table holds four rules of nine keywords each, and for every keyword `k` of a
rule, `analyzeAndRoute({type: k})` returns that rule's store with that rule's reason and
`dataType` `k`; the reason is not the empty string. -/
theorem C2_keywords_route_to_own_store (w : World) (rule : Str × RuleConfig) (k : Str)
    (hrule : rule ∈ routingRules) (hk : k ∈ rule.2.types) :
    (routingRules.map fun r => (r.1, r.2.types.length)) =
        [(str "postgresql", 9), (str "mongodb", 9), (str "redis", 9), (str "neo4j", 9)] ∧
      (∃ w', analyzeAndRoute w (typed k) =
        .ok ({ database := rule.1, reason := rule.2.reason, dataType := k }, w')) ∧
      rule.2.reason ≠ [] := by
  obtain ⟨hn, hs, hr⟩ := keywords_select_own_store rule hrule k hk
  refine ⟨rfl, ?_, hr⟩
  rw [analyzeAndRoute_typed, hn, hs]
  exact ⟨_, rfl⟩

/-- C2 at the keyword `rate` of the redis rule. -/
theorem C2_keywords_route_to_own_store_witness :
    ∃ w', analyzeAndRoute World.initial (typed (str "rate")) =
      .ok ({ database := str "redis", reason := str "In-memory speed for cache and session data",
             dataType := str "rate" }, w') :=
  (C2_keywords_route_to_own_store World.initial
    (str "redis",
      { types := [str "cache", str "session", str "token", str "temp", str "temporary",
                  str "fast", str "realtime", str "counter", str "rate"]
        reason := str "In-memory speed for cache and session data" })
    (str "rate") (by simp [routingRules]) (by simp)).2.1


/-- C3. A string type whose normalized form contains none of the keywords and occurs in
none of them is routed to postgresql with the fixed default reason; the type
`unknown-garbage` is such a type. -/
theorem C3_default_route (w : World) :
    (∀ t : Str,
      (∀ rule ∈ routingRules, ∀ k ∈ rule.2.types,
        ¬ k <:+: normalizeType t ∧ ¬ normalizeType t <:+: k) →
      ∃ w', analyzeAndRoute w (typed t) =
        .ok ({ database := str "postgresql"
               reason := str "Default routing - PostgreSQL provides safe transactional guarantees"
               dataType := normalizeType t }, w')) ∧
    (∃ w', analyzeAndRoute w (typed (str "unknown-garbage")) =
        .ok ({ database := str "postgresql"
               reason := str "Default routing - PostgreSQL provides safe transactional guarantees"
               dataType := str "unknown-garbage" }, w')) := by
  constructor
  · intro t h
    have hs : selectStore (normalizeType t) = (str "postgresql", defaultReason) :=
      selectStore_none _ (fun rule hrule ⟨k, hk, hm⟩ =>
        hm.elim (h rule hrule k hk).1 (h rule hrule k hk).2)
    rw [analyzeAndRoute_typed, hs]
    exact ⟨_, rfl⟩
  · have hn : normalizeType (str "unknown-garbage") = str "unknown-garbage" := by decide
    have hs : selectStore (str "unknown-garbage") = (str "postgresql", defaultReason) := by
      decide
    rw [analyzeAndRoute_typed, hn, hs]
    exact ⟨_, rfl⟩

/-- C3 at the type `Zzz`, whose normalized form `zzz` meets no keyword. -/
theorem C3_default_route_witness :
    ∃ w', analyzeAndRoute World.initial (typed (str "Zzz")) =
      .ok ({ database := str "postgresql"
             reason := str "Default routing - PostgreSQL provides safe transactional guarantees"
             dataType := normalizeType (str "Zzz") }, w') :=
  (C3_default_route World.initial).1 (str "Zzz") (by
    have hn : normalizeType (str "Zzz") = str "zzz" := by decide
    rw [hn]
    have h : ∀ rule ∈ routingRules, ∀ k ∈ rule.2.types,
        includes (str "zzz") k = false ∧ includes k (str "zzz") = false := by decide
    intro rule hrule k hk
    have h' := h rule hrule k hk
    constructor
    · rw [← includes_iff]; simp [h'.1]
    · rw [← includes_iff]; simp [h'.2])

/-- C4. When the normalized type contains a keyword of some rule and contains no keyword
of any rule listed before it, that rule's store is chosen (whether or not keywords of
later rules occur in the type as well); a type whose normalized form contains both
`transaction` and `log` is routed to postgresql. -/
theorem C4_earliest_containing_store (w : World) (t : Str) :
    ∃ d w', analyzeAndRoute w (typed t) = .ok (d, w') ∧
      (∀ pre rule post, routingRules = pre ++ rule :: post →
        (∃ k ∈ rule.2.types, k <:+: normalizeType t) →
        (∀ p ∈ pre, ∀ k ∈ p.2.types, ¬ k <:+: normalizeType t) →
        d.database = rule.1) ∧
      (str "transaction" <:+: normalizeType t → str "log" <:+: normalizeType t →
        d.database = str "postgresql") := by
  have key : ∀ pre rule post, routingRules = pre ++ rule :: post →
      (∃ k ∈ rule.2.types, k <:+: normalizeType t) →
      (∀ p ∈ pre, ∀ k ∈ p.2.types, ¬ k <:+: normalizeType t) →
      (selectStore (normalizeType t)).1 = rule.1 := by
    intro pre rule post hsplit ⟨k, hk, hkn⟩ hpre
    have hpw := keywords_disjoint_across_rules
    rw [hsplit, List.pairwise_append] at hpw
    have hcross := hpw.2.2
    have hno : ∀ p ∈ pre, ¬ Matches (normalizeType t) p.2 := by
      intro p hp ⟨K, hK, hm⟩
      rcases hm with hm | hm
      · exact hpre p hp K hK hm
      · have := hcross p hp rule (by simp) K hK k hk
        have hin : includes K k = true := (includes_iff K k).2 (hkn.trans hm)
        rw [hin] at this
        exact Bool.noConfusion this
    exact congrArg Prod.fst
      (selectStore_first _ pre post rule hsplit ⟨k, hk, Or.inl hkn⟩ hno)
  refine ⟨_, _, analyzeAndRoute_typed w t, key, ?_⟩
  intro htx _
  exact key [] (str "postgresql", _) (routingRules.drop 1) rfl
    ⟨str "transaction", by decide, htx⟩ (by simp)

/-- C4 at the type `Event-Link`, which contains the mongodb keyword `event` and the
neo4j keyword `link` and no postgresql keyword: mongodb is chosen. -/
theorem C4_earliest_containing_store_witness :
    ∃ d w', analyzeAndRoute World.initial (typed (str "Event-Link")) = .ok (d, w') ∧
      d.database = str "mongodb" := by
  obtain ⟨d, w', hrun, hkey, _⟩ :=
    C4_earliest_containing_store World.initial (str "Event-Link")
  refine ⟨d, w', hrun, ?_⟩
  have hn : normalizeType (str "Event-Link") = str "event-link" := by decide
  rw [hn] at hkey
  exact hkey (routingRules.take 1) (str "mongodb", _) (routingRules.drop 2) rfl
    ⟨str "event", by decide, (includes_iff _ _).1 (by decide)⟩
    (by
      have h : ∀ p ∈ routingRules.take 1, ∀ k ∈ p.2.types,
          includes (str "event-link") k = false := by decide
      intro p hp k hk hin
      have := h p hp k hk
      rw [(includes_iff _ _).2 hin] at this
      exact Bool.noConfusion this)

/-- The code units `isWhiteSpace` accepts. -/
theorem isWhiteSpace_mem (c : Nat) (h : isWhiteSpace c = true) :
    c ∈ [0x09, 0x0A, 0x0B, 0x0C, 0x0D, 0x20, 0xA0, 0x1680, 0x2000, 0x2001, 0x2002, 0x2003,
         0x2004, 0x2005, 0x2006, 0x2007, 0x2008, 0x2009, 0x200A, 0x2028, 0x2029, 0x202F,
         0x205F, 0x3000, 0xFEFF] := by
  simp only [isWhiteSpace, Bool.or_eq_true, beq_iff_eq, Bool.and_eq_true, decide_eq_true_eq] at h
  simp only [List.mem_cons, List.mem_singleton, List.not_mem_nil, or_false]
  omega

set_option maxRecDepth 100000 in
theorem whiteSpace_case_facts :
    ∀ c ∈ [0x09, 0x0A, 0x0B, 0x0C, 0x0D, 0x20, 0xA0, 0x1680, 0x2000, 0x2001, 0x2002, 0x2003,
           0x2004, 0x2005, 0x2006, 0x2007, 0x2008, 0x2009, 0x200A, 0x2028, 0x2029, 0x202F,
           0x205F, 0x3000, 0xFEFF],
      (c < 0xD800 ∨ 0xDFFF < c) ∧ c < 0x10000 ∧ c ≠ 0x130 ∧ c ≠ 0x3A3 ∧ lowerPoint c = c ∧
        isCased c = false := by
  decide

theorem isWhiteSpace_case_facts (c : Nat) (h : isWhiteSpace c = true) :
    (c < 0xD800 ∨ 0xDFFF < c) ∧ c < 0x10000 ∧ c ≠ 0x130 ∧ c ≠ 0x3A3 ∧ lowerPoint c = c ∧
      isCased c = false :=
  whiteSpace_case_facts c (isWhiteSpace_mem c h)

theorem codePoints_cons (c : Nat) (t : Str) (hc : c < 0xD800 ∨ 0xDFFF < c) :
    codePoints (c :: t) = c :: codePoints t := by
  cases t with
  | nil => rfl
  | cons d t =>
    rw [codePoints, if_neg (by omega)]

theorem codePoints_whiteSpace_append (ws x : Str) (h : ∀ c ∈ ws, isWhiteSpace c = true) :
    codePoints (ws ++ x) = ws ++ codePoints x := by
  induction ws with
  | nil => rfl
  | cons w ws ih =>
    rw [List.cons_append, codePoints_cons w _ (isWhiteSpace_case_facts w (h w (by simp))).1,
      ih (fun c hc => h c (by simp [hc])), List.cons_append]

theorem codePoints_whiteSpace (ws : Str) (h : ∀ c ∈ ws, isWhiteSpace c = true) :
    codePoints ws = ws := by
  have := codePoints_whiteSpace_append ws [] h
  simpa [codePoints] using this

theorem codePoints_append_whiteSpace (ws : Str) (h : ∀ c ∈ ws, isWhiteSpace c = true) :
    ∀ x : Str, codePoints (x ++ ws) = codePoints x ++ ws := by
  intro x
  induction x using codePoints.induct with
  | case1 => simpa [codePoints] using codePoints_whiteSpace ws h
  | case2 c =>
    cases ws with
    | nil => rfl
    | cons w ws =>
      have hw := (isWhiteSpace_case_facts w (h w (by simp))).1
      rw [List.singleton_append, codePoints.eq_3, if_neg (by omega),
        codePoints_whiteSpace _ h, codePoints.eq_2]
      rfl
  | case3 hi lo rest hpair ih =>
    rw [List.cons_append, List.cons_append, codePoints, if_pos hpair, ih, codePoints,
      if_pos hpair, List.cons_append]
  | case4 hi lo rest hpair ih =>
    rw [List.cons_append, List.cons_append, codePoints, if_neg hpair, ← List.cons_append, ih,
      codePoints, if_neg hpair, List.cons_append]

theorem casedNext_uncased (r : List Nat) (h : ∀ c ∈ r, isCased c = false) :
    casedNext r = false := by
  induction r with
  | nil => rfl
  | cons c r ih =>
    unfold casedNext at ih ⊢
    rw [List.dropWhile_cons]
    by_cases hc : isCaseIgnorable c = true
    · rw [if_pos hc]
      exact ih (fun d hd => h d (by simp [hd]))
    · rw [if_neg hc]
      exact h c (by simp)

theorem casedNext_append_uncased (q r : List Nat) (h : ∀ c ∈ r, isCased c = false) :
    casedNext (q ++ r) = casedNext q := by
  induction q with
  | nil => simpa [casedNext] using casedNext_uncased r h
  | cons c q ih =>
    unfold casedNext at ih ⊢
    rw [List.cons_append, List.dropWhile_cons, List.dropWhile_cons]
    by_cases hc : isCaseIgnorable c = true
    · rw [if_pos hc, if_pos hc]
      exact ih
    · rw [if_neg hc, if_neg hc]

theorem lowerPoints_whiteSpace_append (ws : List Nat) (h : ∀ c ∈ ws, isWhiteSpace c = true) :
    ∀ (b x : List Nat), lowerPoints b (ws ++ x) = ws ++ lowerPoints (ws.reverse ++ b) x := by
  induction ws with
  | nil => intro b x; rfl
  | cons w ws ih =>
    intro b x
    obtain ⟨-, -, h130, h3A3, hlow, -⟩ := isWhiteSpace_case_facts w (h w (by simp))
    rw [List.cons_append, lowerPoints, if_neg h130, if_neg h3A3, hlow,
      ih (fun c hc => h c (by simp [hc])), List.reverse_cons, List.append_assoc]
    rfl

theorem lowerPoints_before_uncased (r : List Nat) (h : ∀ c ∈ r, isCased c = false) :
    ∀ (x q : List Nat), lowerPoints (q ++ r) x = lowerPoints q x := by
  intro x
  induction x with
  | nil => intro q; rfl
  | cons c x ih =>
    intro q
    rw [lowerPoints, lowerPoints, casedNext_append_uncased q r h, ← List.cons_append, ih]

theorem lowerPoints_append_whiteSpace (ws : List Nat) (h : ∀ c ∈ ws, isWhiteSpace c = true) :
    ∀ (x q : List Nat), lowerPoints q (x ++ ws) = lowerPoints q x ++ ws := by
  intro x
  induction x with
  | nil =>
    intro q
    have := lowerPoints_whiteSpace_append ws h q []
    simpa [lowerPoints] using this
  | cons c x ih =>
    intro q
    have hcased : casedNext (x ++ ws) = casedNext x :=
      casedNext_append_uncased x ws (fun d hd => (isWhiteSpace_case_facts d (h d hd)).2.2.2.2.2)
    rw [List.cons_append, lowerPoints, lowerPoints, hcased, ih, List.append_assoc]

theorem codeUnits_append (a b : List Nat) : codeUnits (a ++ b) = codeUnits a ++ codeUnits b := by
  induction a with
  | nil => rfl
  | cons c a ih => rw [List.cons_append, codeUnits, codeUnits, ih, List.append_assoc]

theorem codeUnits_whiteSpace (ws : List Nat) (h : ∀ c ∈ ws, isWhiteSpace c = true) :
    codeUnits ws = ws := by
  induction ws with
  | nil => rfl
  | cons w ws ih =>
    rw [codeUnits, ih (fun c hc => h c (by simp [hc])), unitsOf,
      if_pos (isWhiteSpace_case_facts w (h w (by simp))).2.1]
    rfl

/-- Lower-casing leaves leading and trailing white space where it is and lower-cases what stands
between exactly as it does on its own. -/
theorem toLowerCase_padded (ws₁ ws₂ s : Str) (h₁ : ∀ c ∈ ws₁, isWhiteSpace c = true)
    (h₂ : ∀ c ∈ ws₂, isWhiteSpace c = true) :
    toLowerCase (ws₁ ++ s ++ ws₂) = ws₁ ++ toLowerCase s ++ ws₂ := by
  have hrev : ∀ c ∈ ws₁.reverse, isCased c = false := fun c hc =>
    (isWhiteSpace_case_facts c (h₁ c (List.mem_reverse.mp hc))).2.2.2.2.2
  unfold toLowerCase
  rw [List.append_assoc, codePoints_whiteSpace_append ws₁ _ h₁,
    codePoints_append_whiteSpace ws₂ h₂, lowerPoints_whiteSpace_append ws₁ h₁,
    List.append_nil, ← List.nil_append ws₁.reverse, lowerPoints_before_uncased _ hrev,
    lowerPoints_append_whiteSpace ws₂ h₂, codeUnits_append, codeUnits_append,
    codeUnits_whiteSpace ws₁ h₁, codeUnits_whiteSpace ws₂ h₂, List.append_assoc]

theorem toLowerCase_of_isWhiteSpace (ws : Str) (h : ∀ c ∈ ws, isWhiteSpace c = true) :
    toLowerCase ws = ws := by
  have := toLowerCase_padded ws [] [] h (fun c hc => absurd hc (List.not_mem_nil c))
  simpa [toLowerCase, codePoints, lowerPoints, codeUnits] using this

/-- The Kelvin sign `U+212A` lower-cases to `k`: `TOKEN` written with it becomes `token`. -/
theorem toLowerCase_kelvin : toLowerCase [0x54, 0x4F, 0x212A, 0x45, 0x4E] = str "token" := by
  decide

/-- Letters outside Basic Latin: `CAFÉ` becomes `café`. -/
theorem toLowerCase_latin1 : toLowerCase [0x43, 0x41, 0x46, 0xC9] = [0x63, 0x61, 0x66, 0xE9] := by
  decide

set_option maxRecDepth 100000 in
/-- The condition Final_Sigma: `ΣΑΣ` becomes `σας`, a lone `Σ` becomes `σ`. -/
theorem toLowerCase_sigma :
    toLowerCase [0x3A3, 0x391, 0x3A3] = [0x3C3, 0x3B1, 0x3C2] ∧ toLowerCase [0x3A3] = [0x3C3] := by
  decide

/-- The letter `U+0130` becomes `i` followed by `U+0307`; a surrogate pair is lower-cased as
the code point it encodes (`U+10400` becomes `U+10428`), a lone surrogate stays. -/
theorem toLowerCase_special :
    toLowerCase [0x130] = [0x69, 0x307] ∧ toLowerCase [0xD801, 0xDC00] = [0xD801, 0xDC28] ∧
      toLowerCase [0xD801] = [0xD801] := by
  decide

theorem trim_padded (ws₁ ws₂ s : Str) (h₁ : ∀ c ∈ ws₁, isWhiteSpace c = true)
    (h₂ : ∀ c ∈ ws₂, isWhiteSpace c = true) : trim (ws₁ ++ s ++ ws₂) = trim s := by
  unfold trim trimStart trimEnd
  rw [List.append_assoc, List.dropWhile_append_of_pos h₁, List.dropWhile_append]
  split_ifs with hd
  · have hs : List.dropWhile isWhiteSpace s = [] := by simpa using hd
    rw [hs, List.dropWhile_eq_nil_iff.2 h₂]
  · rw [List.reverse_append, List.dropWhile_append_of_pos (by simpa using h₂)]

theorem normalizeType_padded (ws₁ ws₂ s s' : Str) (h₁ : ∀ c ∈ ws₁, isWhiteSpace c = true)
    (h₂ : ∀ c ∈ ws₂, isWhiteSpace c = true) (hcase : toLowerCase s = toLowerCase s')
    (hne : ws₁ ++ s ++ ws₂ ≠ []) :
    normalizeType (ws₁ ++ s ++ ws₂) = trim (toLowerCase s') := by
  unfold normalizeType
  rw [if_neg hne]
  rw [toLowerCase_padded ws₁ ws₂ s h₁ h₂, trim_padded _ _ _ h₁ h₂, hcase]


theorem analyzeAndRoute_untyped (w : World) (fields : Fields)
    (h : lookup (str "type") fields = none ∨ lookup (str "type") fields = some (.str [])) :
    analyzeAndRoute w (.obj fields) =
      .ok ({ database := str "postgresql", reason := defaultReason, dataType := str "unknown" },
           { w with console := w.console ++
              [.route (str "unknown") (str "POSTGRESQL") defaultReason] }) := by
  have hn : trim (toLowerCase (str "unknown")) = str "unknown" := by decide
  have hs : selectStore (str "unknown") = (str "postgresql", defaultReason) := by decide
  have hu : toUpperCase (str "postgresql") = str "POSTGRESQL" := by decide
  have ho : orElse ((lookup (str "type") fields).getD .undefined) (.str (str "unknown")) =
      .str (str "unknown") := by
    rcases h with h | h <;> rw [h] <;> rfl
  simp only [analyzeAndRoute, getProp, ownProps, ho, hn, hs, hu]

/-- The type `TOKEN` written with the Kelvin sign is normalised to `token` and routed to
redis. -/
theorem analyzeAndRoute_kelvin (w : World) :
    ∃ d w₁, analyzeAndRoute w (typed [0x54, 0x4F, 0x212A, 0x45, 0x4E]) = .ok (d, w₁) ∧
      d.database = str "redis" ∧ d.dataType = str "token" := by
  refine ⟨_, _, analyzeAndRoute_typed w _, ?_, ?_⟩
  · decide
  · decide

/-- C5. For a type that is present and not the empty string, `dataType` is the type
lower-cased and trimmed; two such types that differ only in the case of their letters and
in white space around them receive the same decision; when the type is missing or is the
empty string, `dataType` is `unknown` and the decision is postgresql with the default
reason. -/
theorem C5_normalization (w w' : World) :
    (∀ t : Str, t ≠ [] →
      ∃ d w₁, analyzeAndRoute w (typed t) = .ok (d, w₁) ∧ d.dataType = trim (toLowerCase t)) ∧
    (∀ s s' u₁ u₂ v₁ v₂ : Str, toLowerCase s = toLowerCase s' →
      (∀ c ∈ u₁ ++ u₂ ++ v₁ ++ v₂, isWhiteSpace c = true) →
      u₁ ++ s ++ u₂ ≠ [] → v₁ ++ s' ++ v₂ ≠ [] →
      ∃ d w₁ w₂, analyzeAndRoute w (typed (u₁ ++ s ++ u₂)) = .ok (d, w₁) ∧
        analyzeAndRoute w' (typed (v₁ ++ s' ++ v₂)) = .ok (d, w₂)) ∧
    (∀ fields : Fields,
      lookup (str "type") fields = none ∨ lookup (str "type") fields = some (.str []) →
      ∃ w₁, analyzeAndRoute w (.obj fields) =
        .ok ({ database := str "postgresql"
               reason := str "Default routing - PostgreSQL provides safe transactional guarantees"
               dataType := str "unknown" }, w₁)) := by
  refine ⟨?_, ?_, ?_⟩
  · intro t ht
    refine ⟨_, _, analyzeAndRoute_typed w t, ?_⟩
    simp [normalizeType, ht]
  · intro s s' u₁ u₂ v₁ v₂ hcase hws hu hv
    have hu₁ : ∀ c ∈ u₁, isWhiteSpace c = true := fun c hc => hws c (by simp [hc])
    have hu₂ : ∀ c ∈ u₂, isWhiteSpace c = true := fun c hc => hws c (by simp [hc])
    have hv₁ : ∀ c ∈ v₁, isWhiteSpace c = true := fun c hc => hws c (by simp [hc])
    have hv₂ : ∀ c ∈ v₂, isWhiteSpace c = true := fun c hc => hws c (by simp [hc])
    have e₁ := normalizeType_padded u₁ u₂ s s' hu₁ hu₂ hcase hu
    have e₂ := normalizeType_padded v₁ v₂ s' s' hv₁ hv₂ rfl hv
    rw [analyzeAndRoute_typed, analyzeAndRoute_typed, e₁, e₂]
    exact ⟨_, _, _, rfl, rfl⟩
  · intro fields h
    exact ⟨_, analyzeAndRoute_untyped w fields h⟩

/-- C5 at the type `TOKEN` written with the Kelvin sign `U+212A` and the type ` token `
(white space on both sides), which receive the same decision from different states. -/
theorem C5_normalization_witness :
    ∃ d w₁ w₂,
      analyzeAndRoute World.initial (typed [0x54, 0x4F, 0x212A, 0x45, 0x4E]) = .ok (d, w₁) ∧
      analyzeAndRoute (clearAll World.initial) (typed (str " token ")) = .ok (d, w₂) :=
  (C5_normalization World.initial (clearAll World.initial)).2.1
    [0x54, 0x4F, 0x212A, 0x45, 0x4E] (str "token") [] [] (str " ") (str " ")
    (by decide) (by decide) (by decide) (by decide)

/-- C6. `analyzeAndRoute` changes neither the four stores nor the three counters (it
only adds one line to the console), and two calls whose requests have the same `type`
have the same outcome, the same decision or the same exception, whatever the two states
and the other fields of the two requests. -/
theorem C6_analyzeAndRoute_pure (w₁ w₂ : World) (data₁ data₂ : Value)
    (htype : getProp data₁ (str "type") = getProp data₂ (str "type")) :
    (analyzeAndRoute w₁ data₁).map Prod.fst = (analyzeAndRoute w₂ data₂).map Prod.fst ∧
    (∀ d w', analyzeAndRoute w₁ data₁ = .ok (d, w') →
      w'.databases = w₁.databases ∧ w'.counters = w₁.counters ∧
      w'.console = w₁.console ++ [.route d.dataType (toUpperCase d.database) d.reason]) := by
  constructor
  · unfold analyzeAndRoute
    rw [htype]
    cases getProp data₂ (str "type") with
    | error e => rfl
    | ok type =>
      simp only
      cases orElse type (.str (str "unknown")) <;> rfl
  · intro d w' h
    unfold analyzeAndRoute at h
    cases hg : getProp data₁ (str "type") with
    | error e => rw [hg] at h; cases h
    | ok type =>
      rw [hg] at h
      simp only at h
      cases ho : orElse type (.str (str "unknown"))
      all_goals (rw [ho] at h; simp only at h; cases h)
      exact ⟨rfl, rfl, rfl⟩

/-- C6 at two requests of type `graph` that differ in their other fields, in two
different states. -/
theorem C6_analyzeAndRoute_pure_witness :
    (analyzeAndRoute World.initial
        (.obj [(str "type", .str (str "graph")), (str "key", .str (str "k"))])).map Prod.fst =
      (analyzeAndRoute (clearAll World.initial)
        (.obj [(str "payload", .obj []), (str "type", .str (str "graph"))])).map Prod.fst :=
  (C6_analyzeAndRoute_pure World.initial (clearAll World.initial) _ _ (by rfl)).1

/-! ## Property lists -/

theorem lookup_append_single (k k' : Str) (v : Value) (o : Fields) :
    lookup k (o ++ [(k', v)]) = if k' = k then some v else lookup k o := by
  induction o with
  | nil => simp [lookup]
  | cons p ps ih =>
    obtain ⟨a, b⟩ := p
    simp only [List.cons_append, lookup, ih]
    split_ifs <;> simp_all

theorem lookup_eq_none_of_not_any (k : Str) (o : Fields)
    (h : o.any (fun p => p.1 == k) = false) : lookup k o = none := by
  induction o with
  | nil => rfl
  | cons p ps ih =>
    obtain ⟨a, b⟩ := p
    simp only [List.any_cons, Bool.or_eq_false_iff, beq_eq_false_iff_ne, ne_eq] at h
    simp [lookup, ih h.2, h.1]

theorem lookup_map_replace (k k' : Str) (v : Value) (o : Fields) :
    lookup k' (o.map (fun p => if p.1 = k then (k, v) else p)) =
      if k' = k then (lookup k o).map (fun _ => v) else lookup k' o := by
  induction o with
  | nil => simp [lookup]
  | cons p ps ih =>
    obtain ⟨a, b⟩ := p
    rw [List.map_cons]
    dsimp only
    by_cases ha : a = k
    · rw [if_pos ha]
      simp only [lookup, ih, ha]
      by_cases hk : k' = k
      · simp only [hk, if_true]
        cases lookup k ps <;> rfl
      · simp only [hk, if_false, Ne.symm hk]
    · rw [if_neg ha]
      simp only [lookup, ih]
      by_cases hk : k' = k
      · simp only [hk, if_true, ha, if_false]
        cases lookup k ps <;> rfl
      · simp only [hk, if_false]

theorem any_key_iff_lookup (k : Str) (o : Fields) :
    o.any (fun p => p.1 == k) = true ↔ (lookup k o).isSome = true := by
  induction o with
  | nil => simp [lookup]
  | cons p ps ih =>
    obtain ⟨a, b⟩ := p
    simp only [List.any_cons, Bool.or_eq_true, beq_iff_eq, ih, lookup]
    cases lookup k ps <;> by_cases ha : a = k <;> simp [ha]

theorem lookup_setProp (k k' : Str) (v : Value) (o : Fields) :
    lookup k' (setProp o k v) = if k' = k then some v else lookup k' o := by
  unfold setProp
  split_ifs with hany hk hk
  · rw [lookup_map_replace, if_pos hk]
    rw [any_key_iff_lookup] at hany
    cases h : lookup k o with
    | none => rw [h] at hany; cases hany
    | some x => rfl
  · rw [lookup_map_replace, if_neg hk]
  · rw [lookup_append_single, if_pos hk.symm]
  · rw [lookup_append_single, if_neg (Ne.symm hk)]

theorem lookup_foldl_setProp (k : Str) (props base : Fields) :
    lookup k (props.foldl (fun acc p => setProp acc p.1 p.2) base) =
      match lookup k props with
      | some v => some v
      | none => lookup k base := by
  induction props generalizing base with
  | nil => simp [lookup]
  | cons p ps ih =>
    obtain ⟨a, b⟩ := p
    simp only [List.foldl_cons, ih, lookup, lookup_setProp]
    cases lookup k ps with
    | some x => rfl
    | none =>
      by_cases ha : a = k
      · simp [ha]
      · simp [ha, Ne.symm ha]

theorem lookup_spread (k : Str) (base : Fields) (src : Value) :
    lookup k (spread base src) =
      match lookup k (ownProps src) with
      | some v => some v
      | none => lookup k base :=
  lookup_foldl_setProp k (ownProps src) base

/-! ## The adapters -/

theorem storeInPostgreSQL_world (w : World) (createdAt updatedAt : Str) (data : Value) :
    (storeInPostgreSQL w createdAt updatedAt data).2.counters =
        { w.counters with postgresql := w.counters.postgresql + 1 } ∧
      (storeInPostgreSQL w createdAt updatedAt data).2.databases =
        { w.databases with
          postgresql := w.databases.postgresql ++
            [.obj (spread [(str "id", Value.ofNat w.counters.postgresql),
                           (str "created_at", .str createdAt),
                           (str "updated_at", .str updatedAt)] data)] } := by
  unfold storeInPostgreSQL
  simp only
  split <;> exact ⟨rfl, rfl⟩

theorem storeInPostgreSQL_carries_payload (w : World) (createdAt updatedAt : Str)
    (data : Value) (k : Str) (v : Value) (h : lookup k (ownProps data) = some v) :
    lookup k (spread [(str "id", Value.ofNat w.counters.postgresql),
                      (str "created_at", .str createdAt),
                      (str "updated_at", .str updatedAt)] data) = some v := by
  rw [lookup_spread, h]

theorem storeInPostgreSQL_returns (w : World) (createdAt updatedAt : Str) (data : Value)
    (shown : Str)
    (h : toStringJS ((lookup (str "id") (ownProps data)).getD (Value.ofNat w.counters.postgresql))
      = .ok shown) :
    (storeInPostgreSQL w createdAt updatedAt data).1 =
      .ok (.obj (spread [(str "id", Value.ofNat w.counters.postgresql),
                         (str "created_at", .str createdAt),
                         (str "updated_at", .str updatedAt)] data)) := by
  have hid : (lookup (str "id") (spread [(str "id", Value.ofNat w.counters.postgresql),
      (str "created_at", .str createdAt), (str "updated_at", .str updatedAt)] data)).getD
        .undefined =
      (lookup (str "id") (ownProps data)).getD (Value.ofNat w.counters.postgresql) := by
    rw [lookup_spread]
    have hb : lookup (str "id") [(str "id", Value.ofNat w.counters.postgresql),
        (str "created_at", Value.str createdAt), (str "updated_at", Value.str updatedAt)] =
        some (Value.ofNat w.counters.postgresql) := by
      have e1 : (str "updated_at" = str "id") = False := by decide
      have e2 : (str "created_at" = str "id") = False := by decide
      simp only [lookup, e1, e2, if_false, if_true]
    rw [hb]
    cases lookup (str "id") (ownProps data) <;> rfl
  unfold storeInPostgreSQL
  simp only
  rw [hid, h]

/-- C7. From the initial state, a relational insert of `{amount: 100}` followed by a
relational insert of `{id: 1}` stores two records whose `id` fields are `1` and `1`: the
second record carries the payload's `id`, not the counter value `2`. -/
theorem C7_relational_ids_not_unique :
    ((storeInPostgreSQL
        (storeInPostgreSQL World.initial (str "2024-01-01T00:00:00.000Z")
          (str "2024-01-01T00:00:00.000Z")
          (.obj [(str "amount", .num (str "100"))])).2
        (str "2024-01-01T00:00:00.001Z") (str "2024-01-01T00:00:00.001Z")
        (.obj [(str "id", .num (str "1"))])).2.databases.postgresql.map
      fun record => getProp record (str "id")) =
      [.ok (.num (str "1")), .ok (.num (str "1"))] := by
  rfl

/-- C8. From the initial state, `storeInPostgreSQL({id: {toString: 0}})` advances the
counter to 2 and appends the record, and then throws a TypeError while it builds the log
message from `record.id`: it does not return the record. -/
theorem C8_storeInPostgreSQL_throws_after_append :
    storeInPostgreSQL World.initial (str "2024-01-01T00:00:00.000Z")
        (str "2024-01-01T00:00:00.000Z")
        (.obj [(str "id", .obj [(str "toString", .num (str "0"))])]) =
      (.error .typeError,
       { databases :=
           { postgresql :=
               [.obj [(str "id", .obj [(str "toString", .num (str "0"))]),
                      (str "created_at", .str (str "2024-01-01T00:00:00.000Z")),
                      (str "updated_at", .str (str "2024-01-01T00:00:00.000Z"))]]
             mongodb := [], redis := [], neo4j := [] }
         counters := { postgresql := 2, mongodb := 1, neo4j := 1 }
         console := [] }) := by
  rfl

/-- C9. From the initial state, `storeInMongoDB({_id: 'mine'})` returns and stores a
document whose `_id` is the payload's `mine`, not `doc_1`, and advances the document
counter to 2. -/
theorem C9_payload_id_replaces_doc_id :
    storeInMongoDB World.initial (str "2024-01-01T00:00:00.000Z")
        (str "2024-01-01T00:00:00.000Z") (.obj [(str "_id", .str (str "mine"))]) =
      (.ok (.obj [(str "_id", .str (str "mine")),
                  (str "createdAt", .str (str "2024-01-01T00:00:00.000Z")),
                  (str "updatedAt", .str (str "2024-01-01T00:00:00.000Z"))]),
       { databases :=
           { postgresql := []
             mongodb :=
               [.obj [(str "_id", .str (str "mine")),
                      (str "createdAt", .str (str "2024-01-01T00:00:00.000Z")),
                      (str "updatedAt", .str (str "2024-01-01T00:00:00.000Z"))]]
             redis := [], neo4j := [] }
         counters := { postgresql := 1, mongodb := 2, neo4j := 1 }
         console := [.success (str "Stored in MongoDB with _id: mine")] }) := by
  rfl

/-- C10, as stated, fails: for the payload `{labels: ''}` the `labels` field is present
(it is the empty string), yet the node's `labels` is `['Entity']`. -/
theorem C10_counterexample :
    getProp (.obj [(str "labels", .str [])]) (str "labels") = .ok (.str []) ∧
    (storeInNeo4j World.initial (str "2024-01-01T00:00:00.000Z")
        (.obj [(str "labels", .str [])])).1 =
      .ok (.obj [(str "nodeId", .str (str "node_1")),
                 (str "labels", .arr [.str (str "Entity")]),
                 (str "properties", .obj [(str "labels", .str [])]),
                 (str "relationships", .arr []),
                 (str "createdAt", .str (str "2024-01-01T00:00:00.000Z"))]) ∧
    Value.arr [.str (str "Entity")] ≠ Value.str [] := by
  refine ⟨rfl, rfl, ?_⟩
  intro h
  cases h

/-- C10, amended. For every state and every payload other than `undefined` and `null`,
`storeInNeo4j` returns and appends the node whose `nodeId` is `node_` followed by the
graph counter's value before the call, whose `labels` is the payload's `labels` when that
is truthy and `['Entity']` otherwise, whose `properties` is the payload's `properties`
when that is truthy and the whole payload otherwise, and whose `relationships` is the
payload's `relationships` when that is truthy and the empty array otherwise; the node has
no other field than these and `createdAt`, so its `nodeId` is the generated one. -/
theorem C10_storeInNeo4j_node (w : World) (createdAt : Str) (data : Value)
    (hdata : data ≠ .undefined ∧ data ≠ .null) :
    ∃ node,
      node = .obj
        [(str "nodeId", .str (str "node_" ++ decimal w.counters.neo4j)),
         (str "labels",
            if truthy ((lookup (str "labels") (ownProps data)).getD .undefined)
            then (lookup (str "labels") (ownProps data)).getD .undefined
            else .arr [.str (str "Entity")]),
         (str "properties",
            if truthy ((lookup (str "properties") (ownProps data)).getD .undefined)
            then (lookup (str "properties") (ownProps data)).getD .undefined
            else data),
         (str "relationships",
            if truthy ((lookup (str "relationships") (ownProps data)).getD .undefined)
            then (lookup (str "relationships") (ownProps data)).getD .undefined
            else .arr []),
         (str "createdAt", .str createdAt)] ∧
      (storeInNeo4j w createdAt data).1 = .ok node ∧
      (storeInNeo4j w createdAt data).2.databases =
        { w.databases with neo4j := w.databases.neo4j ++ [node] } ∧
      (storeInNeo4j w createdAt data).2.counters =
        { w.counters with neo4j := w.counters.neo4j + 1 } ∧
      getProp node (str "nodeId") = .ok (.str (str "node_" ++ decimal w.counters.neo4j)) := by
  refine ⟨_, rfl, ?_⟩
  have hget : ∀ k, getProp data k = .ok ((lookup k (ownProps data)).getD .undefined) := by
    intro k
    cases data with
    | undefined => exact absurd rfl hdata.1
    | null => exact absurd rfl hdata.2
    | _ => rfl
  have hid : getProp
      (.obj [(str "nodeId", .str (str "node_" ++ decimal w.counters.neo4j)),
         (str "labels",
            if truthy ((lookup (str "labels") (ownProps data)).getD .undefined)
            then (lookup (str "labels") (ownProps data)).getD .undefined
            else .arr [.str (str "Entity")]),
         (str "properties",
            if truthy ((lookup (str "properties") (ownProps data)).getD .undefined)
            then (lookup (str "properties") (ownProps data)).getD .undefined
            else data),
         (str "relationships",
            if truthy ((lookup (str "relationships") (ownProps data)).getD .undefined)
            then (lookup (str "relationships") (ownProps data)).getD .undefined
            else .arr []),
         (str "createdAt", .str createdAt)]) (str "nodeId") =
      .ok (.str (str "node_" ++ decimal w.counters.neo4j)) := by
    have e1 : (str "createdAt" = str "nodeId") = False := by decide
    have e2 : (str "relationships" = str "nodeId") = False := by decide
    have e3 : (str "properties" = str "nodeId") = False := by decide
    have e4 : (str "labels" = str "nodeId") = False := by decide
    simp only [getProp, ownProps, lookup, e1, e2, e3, e4, if_false, if_true, Option.getD]
  refine ⟨?_, ?_, ?_, hid⟩
  all_goals (unfold storeInNeo4j; simp only [hget, orElse])

/-- C10 (amended) at the payload `{labels: ['User'], relationships: 0}` in the initial
state: the labels are the payload's, the relationships fall back to the empty array, the
properties to the whole payload. -/
theorem C10_storeInNeo4j_node_witness :
    (storeInNeo4j World.initial (str "2024-01-01T00:00:00.000Z")
        (.obj [(str "labels", .arr [.str (str "User")]),
               (str "relationships", .num (str "0"))])).1 =
      .ok (.obj [(str "nodeId", .str (str "node_1")),
                 (str "labels", .arr [.str (str "User")]),
                 (str "properties",
                    .obj [(str "labels", .arr [.str (str "User")]),
                          (str "relationships", .num (str "0"))]),
                 (str "relationships", .arr []),
                 (str "createdAt", .str (str "2024-01-01T00:00:00.000Z"))]) := by
  obtain ⟨node, hnode, hret, _⟩ :=
    C10_storeInNeo4j_node World.initial (str "2024-01-01T00:00:00.000Z")
      (.obj [(str "labels", .arr [.str (str "User")]), (str "relationships", .num (str "0"))])
      ⟨fun h => Value.noConfusion h, fun h => Value.noConfusion h⟩
  rw [hret, hnode]
  rfl

/-! ## The cache adapter -/

theorem getProp_of_ok (v : Value) (k : Str) (x : Value) (h : getProp v k = .ok x) (k' : Str) :
    getProp v k' = .ok ((lookup k' (ownProps v)).getD .undefined) := by
  cases v <;> first | rfl | cases h

theorem getProp_of_truthy (v : Value) (h : truthy v = true) (k : Str) :
    getProp v k = .ok ((lookup k (ownProps v)).getD .undefined) := by
  cases v <;> first | rfl | cases h

theorem analyzeAndRoute_getProp (w w₁ : World) (data : Value) (d : Decision)
    (h : analyzeAndRoute w data = .ok (d, w₁)) (k : Str) :
    getProp data k = .ok ((lookup k (ownProps data)).getD .undefined) := by
  cases data <;> first | rfl | cases h

theorem getProp_payloadOf (data : Value) (k₀ : Str) (x : Value)
    (h : getProp data k₀ = .ok x) (k : Str) :
    getProp (payloadOf data) k = .ok ((lookup k (ownProps (payloadOf data))).getD .undefined) := by
  unfold payloadOf orElse
  split_ifs with ht
  · exact getProp_of_truthy _ ht k
  · exact getProp_of_ok data k₀ x h k

theorem storeInRedis_key (w : World) (nowMs : Nat) (storedAt : Str) (key data : Value) :
    storeInRedis w nowMs storedAt key data =
      match toStringJS (orElse key (.str (str "cache_" ++ decimal nowMs))) with
      | .error e => (.error e, w)
      | .ok name =>
        (.ok (.obj [(str "key", orElse key (.str (str "cache_" ++ decimal nowMs))),
                    (str "value", data), (str "storedAt", .str storedAt),
                    (str "ttl", .num (str "3600"))]),
         { w with
           databases :=
            { w.databases with redis := assign w.databases.redis name (cacheEntry data storedAt) }
           console := w.console ++ [.success (str "Stored in Redis with key: " ++ name)] }) := by
  unfold storeInRedis
  simp only
  cases toStringJS (orElse key (.str (str "cache_" ++ decimal nowMs))) <;> rfl

theorem orElse_three (a b g : Value) :
    orElse (orElse (orElse a b) .null) g =
      if truthy a then a else if truthy b then b else g := by
  have hn : truthy Value.null = false := rfl
  unfold orElse
  cases ha : truthy a <;> cases hb : truthy b <;>
    simp only [ha, hb, hn, if_true, if_false, Bool.false_eq_true]

theorem orElse_chain (nowMs : Nat) (data : Value) :
    orElse (orElse (orElse ((lookup (str "key") (ownProps data)).getD .undefined)
        ((lookup (str "key") (ownProps (payloadOf data))).getD .undefined)) .null)
      (.str (str "cache_" ++ decimal nowMs)) = resolvedKey nowMs data :=
  orElse_three _ _ _

theorem routeAndStore_redis (w w₁ : World) (clock : Readings) (data : Value) (d : Decision)
    (h : analyzeAndRoute w data = .ok (d, w₁)) (hdb : d.database = str "redis") :
    routeAndStore w clock data =
      match toStringJS (resolvedKey clock.nowMs data) with
      | .error e => (.error e, w₁)
      | .ok name =>
        (.ok (.obj [(str "success", .bool true),
                    (str "routedTo", .str (str "Redis")),
                    (str "routedToDisplay", .str (str "Redis")),
                    (str "reason", .str d.reason),
                    (str "dataType", .str d.dataType),
                    (str "stored", .bool true),
                    (str "record",
                      .obj [(str "key", resolvedKey clock.nowMs data),
                            (str "value", payloadOf data), (str "storedAt", .str clock.first),
                            (str "ttl", .num (str "3600"))]),
                    (str "timestamp", .str clock.timestamp)]),
         { w₁ with
           databases :=
            { w₁.databases with
              redis := assign w₁.databases.redis name (cacheEntry (payloadOf data) clock.first) }
           console := w₁.console ++ [.success (str "Stored in Redis with key: " ++ name)] }) := by
  have e1 : (str "redis" = str "postgresql") = False := by decide
  have e2 : (str "redis" = str "mongodb") = False := by decide
  have hc : capitalize (str "redis") = str "Redis" := by decide
  have hn : getDatabaseDisplayName (str "redis") = str "Redis" := by decide
  have hp := analyzeAndRoute_getProp w w₁ data d h (str "payload")
  have hk := analyzeAndRoute_getProp w w₁ data d h (str "key")
  have hpk := getProp_payloadOf data (str "payload") _ hp (str "key")
  unfold routeAndStore
  rw [h]
  simp only [hp, hdb, e1, e2, if_false, if_true]
  rw [show orElse ((lookup (str "payload") (ownProps data)).getD .undefined) data = payloadOf data
    from rfl, hk, hpk]
  simp only [orElse_chain, storeInRedis_key, hc, hn]
  cases toStringJS (resolvedKey clock.nowMs data) <;> rfl

theorem lookup_assign (o : Fields) (k k' : Str) (v : Value) (hk : k ≠ str "__proto__") :
    lookup k' (assign o k v) = if k' = k then some v else lookup k' o := by
  unfold assign
  rw [if_neg hk, lookup_setProp]

theorem mem_keys_iff_lookup (k : Str) (o : Fields) :
    k ∈ o.map Prod.fst ↔ (lookup k o).isSome = true := by
  rw [← any_key_iff_lookup]
  simp [List.any_eq_true]

theorem keyCount_setProp (o : Fields) (k : Str) (v : Value) :
    keyCount (setProp o k v) =
      if (lookup k o).isSome then keyCount o else keyCount o + 1 := by
  unfold setProp keyCount
  by_cases h : (lookup k o).isSome = true
  · have hany := (any_key_iff_lookup k o).2 h
    rw [if_pos hany, if_pos h]
    congr 2
    rw [List.map_map]
    apply List.map_congr_left
    intro p _
    by_cases hp : p.1 = k <;> simp [hp]
  · have hany : ¬ o.any (fun p => p.1 == k) = true := fun ha => h ((any_key_iff_lookup k o).1 ha)
    rw [if_neg hany, if_neg h]
    have hmem : k ∉ o.map Prod.fst := fun hm => h ((mem_keys_iff_lookup k o).1 hm)
    rw [List.map_append, ← List.card_toFinset, ← List.card_toFinset, List.toFinset_append]
    simp only [List.map_cons, List.map_nil, List.toFinset_cons, List.toFinset_nil,
      insert_emptyc_eq]
    rw [Finset.union_comm, ← Finset.insert_eq, Finset.card_insert_of_not_mem]
    simpa using hmem

theorem analyzeAndRoute_frame (w w₁ : World) (data : Value) (d : Decision)
    (h : analyzeAndRoute w data = .ok (d, w₁)) :
    w₁.databases = w.databases ∧ w₁.counters = w.counters := by
  unfold analyzeAndRoute at h
  cases hg : getProp data (str "type") with
  | error e => rw [hg] at h; cases h
  | ok type =>
    rw [hg] at h
    simp only at h
    cases ho : orElse type (.str (str "unknown"))
    all_goals (rw [ho] at h; simp only at h; cases h)
    exact ⟨rfl, rfl⟩

/-- C11, as stated, fails: the request `{type: 'cache', key: '', payload: {key: 'p1'}}`
has an explicit key (the empty string), yet the entry is stored and returned under the
payload's key `p1`. -/
theorem C11_counterexample :
    getProp (.obj [(str "type", .str (str "cache")), (str "key", .str []),
                   (str "payload", .obj [(str "key", .str (str "p1"))])]) (str "key") =
      .ok (.str []) ∧
    routeAndStore World.initial
        { nowMs := 5, first := str "2024-01-01T00:00:00.000Z",
          second := str "2024-01-01T00:00:00.000Z", timestamp := str "2024-01-01T00:00:00.001Z" }
        (.obj [(str "type", .str (str "cache")), (str "key", .str []),
               (str "payload", .obj [(str "key", .str (str "p1"))])]) =
      (.ok (.obj [(str "success", .bool true),
                  (str "routedTo", .str (str "Redis")),
                  (str "routedToDisplay", .str (str "Redis")),
                  (str "reason", .str (str "In-memory speed for cache and session data")),
                  (str "dataType", .str (str "cache")),
                  (str "stored", .bool true),
                  (str "record",
                    .obj [(str "key", .str (str "p1")),
                          (str "value", .obj [(str "key", .str (str "p1"))]),
                          (str "storedAt", .str (str "2024-01-01T00:00:00.000Z")),
                          (str "ttl", .num (str "3600"))]),
                  (str "timestamp", .str (str "2024-01-01T00:00:00.001Z"))]),
       { databases :=
           { postgresql := [], mongodb := []
             redis :=
               [(str "p1",
                  .obj [(str "value", .obj [(str "key", .str (str "p1"))]),
                        (str "storedAt", .str (str "2024-01-01T00:00:00.000Z")),
                        (str "ttl", .num (str "3600"))])]
             neo4j := [] }
         counters := { postgresql := 1, mongodb := 1, neo4j := 1 }
         console :=
           [.route (str "cache") (str "REDIS") (str "In-memory speed for cache and session data"),
            .success (str "Stored in Redis with key: p1")] }) ∧
    Value.str (str "p1") ≠ Value.str [] := by
  refine ⟨rfl, rfl, ?_⟩
  intro h
  cases h

/-- C11, amended. For every request that `analyzeAndRoute` routes to redis, the key is
the request's `key` when that is truthy, otherwise the payload's `key` when that is truthy,
otherwise the generated `cache_<Date.now()>`. When that value converts to the string
`name`, `routeAndStore` returns a record whose `key` is that value, and the cache after
the call is the cache before it with the entry assigned to `name`; unless `name` is
`__proto__`, the entry is then the value of `name` in the cache. -/
theorem C11_cache_key_resolution (w w₁ : World) (clock : Readings) (data : Value)
    (d : Decision) (name : Str)
    (hroute : analyzeAndRoute w data = .ok (d, w₁)) (hredis : d.database = str "redis")
    (hname : toStringJS (resolvedKey clock.nowMs data) = .ok name) :
    ∃ result record,
      (routeAndStore w clock data).1 = .ok result ∧
      getProp result (str "record") = .ok record ∧
      getProp record (str "key") = .ok (resolvedKey clock.nowMs data) ∧
      (routeAndStore w clock data).2.databases.redis =
        assign w.databases.redis name (cacheEntry (payloadOf data) clock.first) ∧
      (name ≠ str "__proto__" →
        lookup name (routeAndStore w clock data).2.databases.redis =
          some (cacheEntry (payloadOf data) clock.first)) := by
  have hw : w₁.databases = w.databases := by
    exact (analyzeAndRoute_frame w w₁ data d hroute).1
  rw [routeAndStore_redis w w₁ clock data d hroute hredis, hname]
  refine ⟨_, _, rfl, rfl, rfl, ?_, ?_⟩
  · simp only [hw]
  · intro hn
    simp only [hw]
    rw [lookup_assign _ _ _ _ hn, if_pos rfl]


/-- C11 (amended) at the request `{type: 'session', payload: {key: 'k9'}}` in the initial
state: there is no explicit key, so the payload's key `k9` is used. -/
theorem C11_cache_key_resolution_witness :
    lookup (str "k9")
        (routeAndStore World.initial
          { nowMs := 5, first := str "2024-01-01T00:00:00.000Z",
            second := str "2024-01-01T00:00:00.000Z",
            timestamp := str "2024-01-01T00:00:00.001Z" }
          (.obj [(str "type", .str (str "session")),
                 (str "payload", .obj [(str "key", .str (str "k9"))])])).2.databases.redis =
      some (cacheEntry (.obj [(str "key", .str (str "k9"))]) (str "2024-01-01T00:00:00.000Z")) := by
  obtain ⟨_, _, _, _, _, _, hstored⟩ :=
    C11_cache_key_resolution World.initial _
      { nowMs := 5, first := str "2024-01-01T00:00:00.000Z",
        second := str "2024-01-01T00:00:00.000Z", timestamp := str "2024-01-01T00:00:00.001Z" }
      (.obj [(str "type", .str (str "session")),
             (str "payload", .obj [(str "key", .str (str "k9"))])])
      _ (str "k9") rfl (by decide) (by rfl)
  exact hstored (by decide)

theorem storeInRedis_string_key (w : World) (nowMs : Nat) (storedAt : Str) (k : Str)
    (p : Value) (hk : k ≠ []) :
    storeInRedis w nowMs storedAt (.str k) p =
      (.ok (.obj [(str "key", .str k), (str "value", p), (str "storedAt", .str storedAt),
                  (str "ttl", .num (str "3600"))]),
       { w with
         databases :=
          { w.databases with redis := assign w.databases.redis k (cacheEntry p storedAt) }
         console := w.console ++ [.success (str "Stored in Redis with key: " ++ k)] }) := by
  rw [storeInRedis_key, orElse_str, if_neg hk]
  rfl

/-- C12, as stated, fails: `storeInRedis('', p)` stores nothing under the key `''`; the
entry goes under the generated key `cache_5` (the clock reads 5), which is also the key of
the returned record. -/
theorem C12_counterexample :
    storeInRedis World.initial 5 (str "2024-01-01T00:00:00.000Z") (.str [])
        (.obj [(str "userId", .str (str "u1"))]) =
      (.ok (.obj [(str "key", .str (str "cache_5")),
                  (str "value", .obj [(str "userId", .str (str "u1"))]),
                  (str "storedAt", .str (str "2024-01-01T00:00:00.000Z")),
                  (str "ttl", .num (str "3600"))]),
       { databases :=
           { postgresql := [], mongodb := []
             redis :=
               [(str "cache_5",
                  .obj [(str "value", .obj [(str "userId", .str (str "u1"))]),
                        (str "storedAt", .str (str "2024-01-01T00:00:00.000Z")),
                        (str "ttl", .num (str "3600"))])]
             neo4j := [] }
         counters := { postgresql := 1, mongodb := 1, neo4j := 1 }
         console := [.success (str "Stored in Redis with key: cache_5")] }) ∧
    lookup []
        (storeInRedis World.initial 5 (str "2024-01-01T00:00:00.000Z") (.str [])
          (.obj [(str "userId", .str (str "u1"))])).2.databases.redis = none := by
  exact ⟨rfl, rfl⟩

/-- C12, amended. For every key `k` that is a non-empty string other than `__proto__` and
every payload `p`, `storeInRedis(k, p)` makes the entry `{value: p, storedAt, ttl: 3600}`
the value of `k` in the cache and returns `{key: k, value: p, storedAt, ttl: 3600}`; and
ingesting `{type: 'cache', key: 'sess_1', payload: {userId: 'u1'}}` is routed to redis and
yields a record with `key` `sess_1` whose `value` has `userId` `u1`. -/
theorem C12_storeInRedis_entry (w : World) (nowMs : Nat) (storedAt : Str) (k : Str)
    (p : Value) (clock : Readings) (hk : k ≠ []) (hproto : k ≠ str "__proto__") :
    (storeInRedis w nowMs storedAt (.str k) p).1 =
        .ok (.obj [(str "key", .str k), (str "value", p), (str "storedAt", .str storedAt),
                   (str "ttl", .num (str "3600"))]) ∧
    lookup k (storeInRedis w nowMs storedAt (.str k) p).2.databases.redis =
        some (.obj [(str "value", p), (str "storedAt", .str storedAt),
                    (str "ttl", .num (str "3600"))]) ∧
    (routeAndStore w clock
        (.obj [(str "type", .str (str "cache")), (str "key", .str (str "sess_1")),
               (str "payload", .obj [(str "userId", .str (str "u1"))])])).1 =
      .ok (.obj [(str "success", .bool true),
                 (str "routedTo", .str (str "Redis")),
                 (str "routedToDisplay", .str (str "Redis")),
                 (str "reason", .str (str "In-memory speed for cache and session data")),
                 (str "dataType", .str (str "cache")),
                 (str "stored", .bool true),
                 (str "record",
                   .obj [(str "key", .str (str "sess_1")),
                         (str "value", .obj [(str "userId", .str (str "u1"))]),
                         (str "storedAt", .str clock.first),
                         (str "ttl", .num (str "3600"))]),
                 (str "timestamp", .str clock.timestamp)]) := by
  rw [storeInRedis_string_key w nowMs storedAt k p hk]
  refine ⟨rfl, ?_, rfl⟩
  simp only
  rw [lookup_assign _ _ _ _ hproto, if_pos rfl]
  rfl

/-- C12 (amended) at the key `sess_1` and the payload `{userId: 'u1'}` in the initial
state. -/
theorem C12_storeInRedis_entry_witness :
    lookup (str "sess_1")
        (storeInRedis World.initial 5 (str "2024-01-01T00:00:00.000Z") (.str (str "sess_1"))
          (.obj [(str "userId", .str (str "u1"))])).2.databases.redis =
      some (.obj [(str "value", .obj [(str "userId", .str (str "u1"))]),
                  (str "storedAt", .str (str "2024-01-01T00:00:00.000Z")),
                  (str "ttl", .num (str "3600"))]) :=
  (C12_storeInRedis_entry World.initial 5 (str "2024-01-01T00:00:00.000Z") (str "sess_1")
    (.obj [(str "userId", .str (str "u1"))])
    { nowMs := 5, first := str "2024-01-01T00:00:00.000Z",
      second := str "2024-01-01T00:00:00.000Z", timestamp := str "2024-01-01T00:00:00.001Z" }
    (by decide) (by decide)).2.1

/-- C13, as stated, fails: after a cache write without a key at clock reading 5, which
creates `cache_5`, the key `''` is not present in the cache; `storeInRedis('', p)` at the
same clock reading leaves the number of keys at 1 and `''` is still not a key. -/
theorem C13_counterexample :
    lookup []
        (storeInRedis World.initial 5 (str "2024-01-01T00:00:00.000Z") .null
          (.obj [])).2.databases.redis = none ∧
    keyCount
        (storeInRedis World.initial 5 (str "2024-01-01T00:00:00.000Z") .null
          (.obj [])).2.databases.redis = 1 ∧
    keyCount
        (storeInRedis
          (storeInRedis World.initial 5 (str "2024-01-01T00:00:00.000Z") .null (.obj [])).2
          5 (str "2024-01-01T00:00:00.000Z") (.str [])
          (.obj [(str "userId", .str (str "u1"))])).2.databases.redis = 1 ∧
    lookup []
        (storeInRedis
          (storeInRedis World.initial 5 (str "2024-01-01T00:00:00.000Z") .null (.obj [])).2
          5 (str "2024-01-01T00:00:00.000Z") (.str [])
          (.obj [(str "userId", .str (str "u1"))])).2.databases.redis = none := by
  exact ⟨rfl, by decide, by decide, rfl⟩

/-- C13, amended. For every cache state, every key `k` that is a non-empty string other
than `__proto__` and every payload `p`, after `storeInRedis(k, p)` the value of `k` is the
entry `{value: p, storedAt, ttl: 3600}` with `storedAt` the clock reading of the call, the
value of every other key is what it was, and the number of keys is unchanged when `k` was
present and one more when it was not. -/
theorem C13_storeInRedis_upsert (w : World) (nowMs : Nat) (storedAt : Str) (k : Str)
    (p : Value) (hk : k ≠ []) (hproto : k ≠ str "__proto__") :
    lookup k (storeInRedis w nowMs storedAt (.str k) p).2.databases.redis =
        some (.obj [(str "value", p), (str "storedAt", .str storedAt),
                    (str "ttl", .num (str "3600"))]) ∧
    (∀ k', k' ≠ k →
      lookup k' (storeInRedis w nowMs storedAt (.str k) p).2.databases.redis =
        lookup k' w.databases.redis) ∧
    ((lookup k w.databases.redis).isSome = true →
      keyCount (storeInRedis w nowMs storedAt (.str k) p).2.databases.redis =
        keyCount w.databases.redis) ∧
    (lookup k w.databases.redis = none →
      keyCount (storeInRedis w nowMs storedAt (.str k) p).2.databases.redis =
        keyCount w.databases.redis + 1) := by
  rw [storeInRedis_string_key w nowMs storedAt k p hk]
  simp only
  refine ⟨?_, ?_, ?_, ?_⟩
  · rw [lookup_assign _ _ _ _ hproto, if_pos rfl]; rfl
  · intro k' hk'
    rw [lookup_assign _ _ _ _ hproto, if_neg hk']
  · intro hpresent
    unfold assign
    rw [if_neg hproto, keyCount_setProp, if_pos hpresent]
  · intro habsent
    unfold assign
    rw [if_neg hproto, keyCount_setProp, habsent]
    rfl

/-- C13 (amended) at the key `sess_1`, written twice from the initial state: the second
write finds the key present and leaves the number of keys at 1. -/
theorem C13_storeInRedis_upsert_witness :
    keyCount
        (storeInRedis
          (storeInRedis World.initial 5 (str "2024-01-01T00:00:00.000Z") (.str (str "sess_1"))
            (.obj [])).2
          6 (str "2024-01-01T00:00:00.001Z") (.str (str "sess_1"))
          (.obj [(str "userId", .str (str "u1"))])).2.databases.redis =
      keyCount
        (storeInRedis World.initial 5 (str "2024-01-01T00:00:00.000Z") (.str (str "sess_1"))
          (.obj [])).2.databases.redis :=
  (C13_storeInRedis_upsert
    (storeInRedis World.initial 5 (str "2024-01-01T00:00:00.000Z") (.str (str "sess_1"))
      (.obj [])).2
    6 (str "2024-01-01T00:00:00.001Z") (str "sess_1")
    (.obj [(str "userId", .str (str "u1"))]) (by decide) (by decide)).2.2.1 (by rfl)

/-! ## Clearing, and the orchestration entry point -/

/-- C14. From every state, `clearAll` leaves the relational, document and graph
sequences and the cache mapping empty and the three counters at 1, and a second
`clearAll` leaves the stores and counters exactly as the first one left them. -/
theorem C14_clearAll_resets (w : World) :
    (clearAll w).databases.postgresql = [] ∧ (clearAll w).databases.mongodb = [] ∧
    (clearAll w).databases.redis = [] ∧ (clearAll w).databases.neo4j = [] ∧
    (clearAll w).counters.postgresql = 1 ∧ (clearAll w).counters.mongodb = 1 ∧
    (clearAll w).counters.neo4j = 1 ∧
    (clearAll (clearAll w)).databases = (clearAll w).databases ∧
    (clearAll (clearAll w)).counters = (clearAll w).counters :=
  ⟨rfl, rfl, rfl, rfl, rfl, rfl, rfl, rfl, rfl⟩

/-- C15. After `clearAll`, a relational insert of `{id: 7}` stores a record with id 7,
not 1, and a document insert of `{_id: 'mine'}` stores a document with `_id` `mine`, not
`doc_1`. -/
theorem C15_insert_after_clear_keeps_payload_id :
    ((storeInPostgreSQL (clearAll World.initial) (str "2024-01-01T00:00:00.000Z")
        (str "2024-01-01T00:00:00.000Z")
        (.obj [(str "id", .num (str "7"))])).2.databases.postgresql.map
      fun record => getProp record (str "id")) = [.ok (.num (str "7"))] ∧
    ((storeInMongoDB (clearAll World.initial) (str "2024-01-01T00:00:00.000Z")
        (str "2024-01-01T00:00:00.000Z")
        (.obj [(str "_id", .str (str "mine"))])).2.databases.mongodb.map
      fun document => getProp document (str "_id")) = [.ok (.str (str "mine"))] :=
  ⟨rfl, rfl⟩

/-- C16. From the initial state, `routeAndStore({type: 'order', payload: {id: {toString:
0}}})` is routed to postgresql, whose adapter appends the record and advances the counter
and then throws: `routeAndStore` throws a TypeError and returns no reason, dataType or
record, although the relational store has been modified. -/
theorem C16_routeAndStore_throws_after_store :
    routeAndStore World.initial
        { nowMs := 5, first := str "2024-01-01T00:00:00.000Z",
          second := str "2024-01-01T00:00:00.000Z", timestamp := str "2024-01-01T00:00:00.001Z" }
        (.obj [(str "type", .str (str "order")),
               (str "payload", .obj [(str "id", .obj [(str "toString", .num (str "0"))])])]) =
      (.error .typeError,
       { databases :=
           { postgresql :=
               [.obj [(str "id", .obj [(str "toString", .num (str "0"))]),
                      (str "created_at", .str (str "2024-01-01T00:00:00.000Z")),
                      (str "updated_at", .str (str "2024-01-01T00:00:00.000Z"))]]
             mongodb := [], redis := [], neo4j := [] }
         counters := { postgresql := 2, mongodb := 1, neo4j := 1 }
         console :=
           [.route (str "order") (str "POSTGRESQL")
              (str "ACID compliance required for transactional integrity")] }) := by
  rfl

/-- C17. From the initial state, `routeAndStore({type: 'transaction', payload: {id: 5}})`
is routed to postgresql and stores a record whose id is the payload's 5, not 1; with the
payload `{amount: 100}` the record has id 1 and amount 100. -/
theorem C17_transaction_record_takes_payload_id :
    (routeAndStore World.initial
        { nowMs := 5, first := str "2024-01-01T00:00:00.000Z",
          second := str "2024-01-01T00:00:00.000Z", timestamp := str "2024-01-01T00:00:00.001Z" }
        (.obj [(str "type", .str (str "transaction")),
               (str "payload", .obj [(str "id", .num (str "5"))])])).2.databases.postgresql =
      [.obj [(str "id", .num (str "5")),
             (str "created_at", .str (str "2024-01-01T00:00:00.000Z")),
             (str "updated_at", .str (str "2024-01-01T00:00:00.000Z"))]] ∧
    (routeAndStore World.initial
        { nowMs := 5, first := str "2024-01-01T00:00:00.000Z",
          second := str "2024-01-01T00:00:00.000Z", timestamp := str "2024-01-01T00:00:00.001Z" }
        (.obj [(str "type", .str (str "transaction")),
               (str "payload", .obj [(str "amount", .num (str "100"))])])).2.databases.postgresql =
      [.obj [(str "id", .num (str "1")),
             (str "created_at", .str (str "2024-01-01T00:00:00.000Z")),
             (str "updated_at", .str (str "2024-01-01T00:00:00.000Z")),
             (str "amount", .num (str "100"))]] :=
  ⟨rfl, rfl⟩

/-- C19. From the initial state, the ingest request `{type: 'order', payload: {id:
{toString: 0}}}` fails with status 500, and afterwards the relational store holds the
record and the relational counter is 2: the failed request has changed the state. -/
theorem C19_failed_ingest_changes_state :
    ingest World.initial
        { nowMs := 5, first := str "2024-01-01T00:00:00.000Z",
          second := str "2024-01-01T00:00:00.000Z", timestamp := str "2024-01-01T00:00:00.001Z" }
        5 6 (fun _ => str "Cannot convert object to primitive value")
        (.obj [(str "type", .str (str "order")),
               (str "payload", .obj [(str "id", .obj [(str "toString", .num (str "0"))])])]) =
      ({ status := 500
         body := .obj [(str "success", .bool false),
                       (str "error", .str (str "Internal server error")),
                       (str "message", .str (str "Cannot convert object to primitive value"))] },
       { databases :=
           { postgresql :=
               [.obj [(str "id", .obj [(str "toString", .num (str "0"))]),
                      (str "created_at", .str (str "2024-01-01T00:00:00.000Z")),
                      (str "updated_at", .str (str "2024-01-01T00:00:00.000Z"))]]
             mongodb := [], redis := [], neo4j := [] }
         counters := { postgresql := 2, mongodb := 1, neo4j := 1 }
         console :=
           [.route (str "order") (str "POSTGRESQL")
              (str "ACID compliance required for transactional integrity"),
            .error (str "Ingestion failed") .typeError] }) := by
  rfl

/-! ## The ingest guard -/

theorem routeAndStore_ok_display (w : World) (clock : Readings) (data result : Value)
    (h : (routeAndStore w clock data).1 = .ok result) :
    ∃ s, toStringJS ((lookup (str "routedToDisplay") (ownProps result)).getD .undefined) =
      .ok s := by
  unfold routeAndStore at h
  split at h
  · cases h
  · split at h
    · cases h
    · simp only at h
      split at h
      · cases h
      · simp only at h
        cases h
        exact ⟨_, rfl⟩

theorem truthy_of_ownProps_ne_nil (body : Value) (h : ownProps body ≠ []) :
    truthy body = true := by
  cases body with
  | str s =>
    cases s with
    | nil => exact absurd rfl h
    | cons c cs => rfl
  | arr items => rfl
  | obj fields => rfl
  | _ => exact absurd rfl h

/-- C18. For a body that is absent (`undefined` or `null`) or has no own property, the
ingest handler answers with status 400 and the body `{success: false, error: 'Request
body is required', example: ...}` and changes no store and no counter. For a body with at
least one property it calls `routeAndStore` on that body: the stores and counters after
the request are those `routeAndStore` leaves, the answer is `routeAndStore`'s result with
`responseTimeMs` added when it returns, and the status 500 answer when it throws. -/
theorem C18_ingest_guard (w : World) (clock : Readings) (startMs endMs : Nat)
    (message : JSError → Str) :
    (∀ body : Value, body = .undefined ∨ body = .null ∨ ownProps body = [] →
      (ingest w clock startMs endMs message body).1 =
        { status := 400
          body := .obj [(str "success", .bool false),
                        (str "error", .str (str "Request body is required")),
                        (str "example",
                          .obj [(str "type", .str (str "transaction")),
                                (str "payload",
                                  .obj [(str "amount", .num (str "100")),
                                        (str "currency", .str (str "USD"))])])] } ∧
      (ingest w clock startMs endMs message body).2.databases = w.databases ∧
      (ingest w clock startMs endMs message body).2.counters = w.counters) ∧
    (∀ body : Value, ownProps body ≠ [] →
      (ingest w clock startMs endMs message body).2.databases =
        (routeAndStore w clock body).2.databases ∧
      (ingest w clock startMs endMs message body).2.counters =
        (routeAndStore w clock body).2.counters ∧
      (∀ result, (routeAndStore w clock body).1 = .ok result →
        (ingest w clock startMs endMs message body).1 =
          { status := 200
            body := .obj (setProp (ownProps result) (str "responseTimeMs")
                      (.num (elapsed startMs endMs))) }) ∧
      (∀ e, (routeAndStore w clock body).1 = .error e →
        (ingest w clock startMs endMs message body).1 =
          { status := 500
            body := .obj [(str "success", .bool false),
                          (str "error", .str (str "Internal server error")),
                          (str "message", .str (message e))] })) := by
  constructor
  · intro body hbody
    have hcond : (!truthy body || (ownProps body).isEmpty) = true := by
      rcases hbody with h | h | h
      · subst h; rfl
      · subst h; rfl
      · rw [h]; simp
    unfold ingest
    rw [if_pos hcond]
    exact ⟨rfl, rfl, rfl⟩
  · intro body hbody
    have hcond : ¬ (!truthy body || (ownProps body).isEmpty) = true := by
      rw [truthy_of_ownProps_ne_nil body hbody]
      simpa [List.isEmpty_iff] using hbody
    unfold ingest
    rw [if_neg hcond]
    cases hrs : routeAndStore w clock body with
    | mk out w₁ =>
      cases out with
      | error e =>
        refine ⟨rfl, rfl, ?_, ?_⟩
        · intro result hres; cases hres
        · intro e' he; cases he; rfl
      | ok result =>
        obtain ⟨s, hs⟩ := routeAndStore_ok_display w clock body result (by rw [hrs])
        refine ⟨?_, ?_, ?_, ?_⟩
        · simp only [hs]
        · simp only [hs]
        · intro result' hres; cases hres; simp only [hs]
        · intro e he; cases he

/-- C18 at the empty object (answered with status 400, the state keeps its stores) and at
the body `{type: 'transaction', payload: {amount: 100}}` (answered with status 200). -/
theorem C18_ingest_guard_witness :
    (ingest World.initial
        { nowMs := 5, first := str "2024-01-01T00:00:00.000Z",
          second := str "2024-01-01T00:00:00.000Z", timestamp := str "2024-01-01T00:00:00.001Z" }
        5 6 (fun _ => str "TypeError") (.obj [])).2.databases = World.initial.databases ∧
    (ingest World.initial
        { nowMs := 5, first := str "2024-01-01T00:00:00.000Z",
          second := str "2024-01-01T00:00:00.000Z", timestamp := str "2024-01-01T00:00:00.001Z" }
        5 6 (fun _ => str "TypeError")
        (.obj [(str "type", .str (str "transaction")),
               (str "payload", .obj [(str "amount", .num (str "100"))])])).2.counters =
      { postgresql := 2, mongodb := 1, neo4j := 1 } :=
  ⟨((C18_ingest_guard World.initial _ 5 6 _).1 (.obj []) (Or.inr (Or.inr rfl))).2.1,
   ((C18_ingest_guard World.initial _ 5 6 _).2 _ (by simp [ownProps])).2.1.trans rfl⟩

/-! ## Append-only sequences -/

theorem storeInPostgreSQL_returned (w : World) (createdAt updatedAt : Str) (data r : Value)
    (h : (storeInPostgreSQL w createdAt updatedAt data).1 = .ok r) :
    r = .obj (spread [(str "id", Value.ofNat w.counters.postgresql),
                      (str "created_at", .str createdAt),
                      (str "updated_at", .str updatedAt)] data) := by
  unfold storeInPostgreSQL at h
  simp only at h
  split at h
  · cases h
  · cases h; rfl

theorem storeInMongoDB_world (w : World) (createdAt updatedAt : Str) (data : Value) :
    (storeInMongoDB w createdAt updatedAt data).2.counters =
        { w.counters with mongodb := w.counters.mongodb + 1 } ∧
      (storeInMongoDB w createdAt updatedAt data).2.databases =
        { w.databases with
          mongodb := w.databases.mongodb ++
            [.obj (spread [(str "_id", .str (str "doc_" ++ decimal w.counters.mongodb)),
                           (str "createdAt", .str createdAt),
                           (str "updatedAt", .str updatedAt)] data)] } := by
  unfold storeInMongoDB
  simp only
  split <;> exact ⟨rfl, rfl⟩

theorem storeInMongoDB_returned (w : World) (createdAt updatedAt : Str) (data r : Value)
    (h : (storeInMongoDB w createdAt updatedAt data).1 = .ok r) :
    r = .obj (spread [(str "_id", .str (str "doc_" ++ decimal w.counters.mongodb)),
                      (str "createdAt", .str createdAt),
                      (str "updatedAt", .str updatedAt)] data) := by
  unfold storeInMongoDB at h
  simp only at h
  split at h
  · cases h
  · cases h; rfl

theorem storeInRedis_frame (w : World) (nowMs : Nat) (storedAt : Str) (key data : Value) :
    (storeInRedis w nowMs storedAt key data).2.counters = w.counters ∧
    (storeInRedis w nowMs storedAt key data).2.databases.postgresql = w.databases.postgresql ∧
    (storeInRedis w nowMs storedAt key data).2.databases.mongodb = w.databases.mongodb ∧
    (storeInRedis w nowMs storedAt key data).2.databases.neo4j = w.databases.neo4j := by
  rw [storeInRedis_key]
  split <;> exact ⟨rfl, rfl, rfl, rfl⟩

theorem storeInNeo4j_frame (w : World) (createdAt : Str) (data : Value) :
    (storeInNeo4j w createdAt data).2.counters =
        { w.counters with neo4j := w.counters.neo4j + 1 } ∧
    (storeInNeo4j w createdAt data).2.databases.postgresql = w.databases.postgresql ∧
    (storeInNeo4j w createdAt data).2.databases.mongodb = w.databases.mongodb ∧
    (storeInNeo4j w createdAt data).2.databases.redis = w.databases.redis ∧
    (∀ node, (storeInNeo4j w createdAt data).1 = .ok node →
      (storeInNeo4j w createdAt data).2.databases.neo4j = w.databases.neo4j ++ [node]) ∧
    (∀ e, (storeInNeo4j w createdAt data).1 = .error e →
      (storeInNeo4j w createdAt data).2.databases.neo4j = w.databases.neo4j) := by
  unfold storeInNeo4j
  simp only
  split
  · refine ⟨rfl, rfl, rfl, rfl, ?_, ?_⟩
    · intro node h; cases h; rfl
    · intro e h; cases h
  all_goals
    refine ⟨rfl, rfl, rfl, rfl, ?_, ?_⟩
    · intro node h; cases h
    · intro e h; rfl

theorem storeInNeo4j_neo4j_cases (w : World) (createdAt : Str) (data : Value) :
    (∃ node, (storeInNeo4j w createdAt data).1 = .ok node) ∨
    (∃ e, (storeInNeo4j w createdAt data).1 = .error e) := by
  cases h : (storeInNeo4j w createdAt data).1 with
  | ok node => exact Or.inl ⟨node, rfl⟩
  | error e => exact Or.inr ⟨e, rfl⟩

theorem Call.run_grows (w : World) (c : Call) (hc : c.isClear = false) :
    w.databases.postgresql <+: (c.run w).databases.postgresql ∧
    w.databases.mongodb <+: (c.run w).databases.mongodb ∧
    w.databases.neo4j <+: (c.run w).databases.neo4j := by
  cases c with
  | storeInPostgreSQL createdAt updatedAt data =>
    simp only [Call.run, (storeInPostgreSQL_world w createdAt updatedAt data).2]
    exact ⟨List.prefix_append _ _, List.prefix_refl _, List.prefix_refl _⟩
  | storeInMongoDB createdAt updatedAt data =>
    simp only [Call.run, (storeInMongoDB_world w createdAt updatedAt data).2]
    exact ⟨List.prefix_refl _, List.prefix_append _ _, List.prefix_refl _⟩
  | storeInRedis nowMs storedAt key data =>
    obtain ⟨_, h₁, h₂, h₃⟩ := storeInRedis_frame w nowMs storedAt key data
    simp only [Call.run, h₁, h₂, h₃]
    exact ⟨List.prefix_refl _, List.prefix_refl _, List.prefix_refl _⟩
  | storeInNeo4j createdAt data =>
    obtain ⟨_, h₁, h₂, _, hok, herr⟩ := storeInNeo4j_frame w createdAt data
    simp only [Call.run, h₁, h₂]
    refine ⟨List.prefix_refl _, List.prefix_refl _, ?_⟩
    rcases storeInNeo4j_neo4j_cases w createdAt data with ⟨node, hn⟩ | ⟨e, he⟩
    · rw [hok node hn]; exact List.prefix_append _ _
    · rw [herr e he]
  | getAllStorage => exact ⟨List.prefix_refl _, List.prefix_refl _, List.prefix_refl _⟩
  | clearAll => cases hc

theorem runCalls_grows (calls : List Call) :
    ∀ w : World, (∀ c ∈ calls, c.isClear = false) →
      w.databases.postgresql <+: (runCalls w calls).databases.postgresql ∧
      w.databases.mongodb <+: (runCalls w calls).databases.mongodb ∧
      w.databases.neo4j <+: (runCalls w calls).databases.neo4j := by
  induction calls with
  | nil => intro w _; exact ⟨List.prefix_refl _, List.prefix_refl _, List.prefix_refl _⟩
  | cons c cs ih =>
    intro w h
    obtain ⟨a₁, a₂, a₃⟩ := Call.run_grows w c (h c (by simp))
    obtain ⟨b₁, b₂, b₃⟩ := ih (c.run w) (fun c' hc' => h c' (by simp [hc']))
    exact ⟨a₁.trans b₁, a₂.trans b₂, a₃.trans b₃⟩

/-- C20. The relational, document and graph sequences are append-only between clears.
`storeInPostgreSQL` leaves the relational sequence as it was with one record added last
(the record it returns) and leaves the other two sequences as they were; so does
`storeInMongoDB` for the document sequence; `storeInNeo4j` adds the node it returns last to
the graph sequence (and adds nothing when it throws) and leaves the other two as they
were; `storeInRedis` leaves all three as they were. Hence after any sequence of store
calls without `clearAll`, each of the three sequences begins with what it held before,
unchanged and in the same positions, followed by the records added in call order. -/
theorem C20_append_only (w : World) :
    (∀ (createdAt updatedAt : Str) (data : Value), ∃ record,
      (storeInPostgreSQL w createdAt updatedAt data).2.databases.postgresql =
        w.databases.postgresql ++ [record] ∧
      (storeInPostgreSQL w createdAt updatedAt data).2.databases.mongodb =
        w.databases.mongodb ∧
      (storeInPostgreSQL w createdAt updatedAt data).2.databases.neo4j = w.databases.neo4j ∧
      ∀ r, (storeInPostgreSQL w createdAt updatedAt data).1 = .ok r → r = record) ∧
    (∀ (createdAt updatedAt : Str) (data : Value), ∃ document,
      (storeInMongoDB w createdAt updatedAt data).2.databases.mongodb =
        w.databases.mongodb ++ [document] ∧
      (storeInMongoDB w createdAt updatedAt data).2.databases.postgresql =
        w.databases.postgresql ∧
      (storeInMongoDB w createdAt updatedAt data).2.databases.neo4j = w.databases.neo4j ∧
      ∀ r, (storeInMongoDB w createdAt updatedAt data).1 = .ok r → r = document) ∧
    (∀ (createdAt : Str) (data : Value),
      (storeInNeo4j w createdAt data).2.databases.postgresql = w.databases.postgresql ∧
      (storeInNeo4j w createdAt data).2.databases.mongodb = w.databases.mongodb ∧
      (∀ node, (storeInNeo4j w createdAt data).1 = .ok node →
        (storeInNeo4j w createdAt data).2.databases.neo4j = w.databases.neo4j ++ [node]) ∧
      (∀ e, (storeInNeo4j w createdAt data).1 = .error e →
        (storeInNeo4j w createdAt data).2.databases.neo4j = w.databases.neo4j)) ∧
    (∀ (nowMs : Nat) (storedAt : Str) (key data : Value),
      (storeInRedis w nowMs storedAt key data).2.databases.postgresql =
        w.databases.postgresql ∧
      (storeInRedis w nowMs storedAt key data).2.databases.mongodb = w.databases.mongodb ∧
      (storeInRedis w nowMs storedAt key data).2.databases.neo4j = w.databases.neo4j) ∧
    (∀ calls : List Call, (∀ c ∈ calls, c.isClear = false) →
      w.databases.postgresql <+: (runCalls w calls).databases.postgresql ∧
      w.databases.mongodb <+: (runCalls w calls).databases.mongodb ∧
      w.databases.neo4j <+: (runCalls w calls).databases.neo4j) := by
  refine ⟨?_, ?_, ?_, ?_, ?_⟩
  · intro createdAt updatedAt data
    refine ⟨_, ?_, ?_, ?_, storeInPostgreSQL_returned w createdAt updatedAt data⟩ <;>
      rw [(storeInPostgreSQL_world w createdAt updatedAt data).2]
  · intro createdAt updatedAt data
    refine ⟨_, ?_, ?_, ?_, storeInMongoDB_returned w createdAt updatedAt data⟩ <;>
      rw [(storeInMongoDB_world w createdAt updatedAt data).2]
  · intro createdAt data
    obtain ⟨_, h₁, h₂, _, hok, herr⟩ := storeInNeo4j_frame w createdAt data
    exact ⟨h₁, h₂, hok, herr⟩
  · intro nowMs storedAt key data
    obtain ⟨_, h₁, h₂, h₃⟩ := storeInRedis_frame w nowMs storedAt key data
    exact ⟨h₁, h₂, h₃⟩
  · intro calls h
    exact runCalls_grows calls w h

/-- C20 at three calls from the initial state, two relational inserts with a cache write
between them: the relational sequence holds the two records in call order. -/
theorem C20_append_only_witness :
    (runCalls World.initial
        [.storeInPostgreSQL (str "2024-01-01T00:00:00.000Z") (str "2024-01-01T00:00:00.000Z")
            (.obj [(str "amount", .num (str "100"))]),
         .storeInRedis 5 (str "2024-01-01T00:00:00.001Z") (.str (str "sess_1")) (.obj []),
         .storeInPostgreSQL (str "2024-01-01T00:00:00.002Z") (str "2024-01-01T00:00:00.002Z")
            (.obj [(str "amount", .num (str "7"))])]).databases.postgresql =
      [.obj [(str "id", .num (str "1")),
             (str "created_at", .str (str "2024-01-01T00:00:00.000Z")),
             (str "updated_at", .str (str "2024-01-01T00:00:00.000Z")),
             (str "amount", .num (str "100"))],
       .obj [(str "id", .num (str "2")),
             (str "created_at", .str (str "2024-01-01T00:00:00.002Z")),
             (str "updated_at", .str (str "2024-01-01T00:00:00.002Z")),
             (str "amount", .num (str "7"))]] ∧
    World.initial.databases.postgresql <+:
      (runCalls World.initial
        [.storeInPostgreSQL (str "2024-01-01T00:00:00.000Z") (str "2024-01-01T00:00:00.000Z")
            (.obj [(str "amount", .num (str "100"))])]).databases.postgresql :=
  ⟨rfl, ((C20_append_only World.initial).2.2.2.2 _ (by simp [Call.isClear])).1⟩

/-! ## The snapshot, the timestamps and the demo -/

/-- C21. For every state, the snapshot `getAllStorage` returns has, for each store, the
count and the contents the state holds: `recordCount`, `documentCount` and `nodeCount` are
the lengths of the three sequences and `records`, `documents` and `nodes` are those
sequences in stored order; `keyCount` is the number of distinct keys of the cache mapping
and `entries` is the mapping. The call leaves the state, stores and counters included,
as it was. -/
theorem C21_getAllStorage_snapshot (w : World) :
    (∃ pg, getProp (getAllStorage w) (str "postgresql") = .ok pg ∧
      getProp pg (str "recordCount") = .ok (Value.ofNat w.databases.postgresql.length) ∧
      getProp pg (str "records") = .ok (.arr w.databases.postgresql)) ∧
    (∃ mongo, getProp (getAllStorage w) (str "mongodb") = .ok mongo ∧
      getProp mongo (str "documentCount") = .ok (Value.ofNat w.databases.mongodb.length) ∧
      getProp mongo (str "documents") = .ok (.arr w.databases.mongodb)) ∧
    (∃ redis, getProp (getAllStorage w) (str "redis") = .ok redis ∧
      getProp redis (str "keyCount") =
        .ok (Value.ofNat (w.databases.redis.map Prod.fst).toFinset.card) ∧
      getProp redis (str "entries") = .ok (.obj w.databases.redis)) ∧
    (∃ neo, getProp (getAllStorage w) (str "neo4j") = .ok neo ∧
      getProp neo (str "nodeCount") = .ok (Value.ofNat w.databases.neo4j.length) ∧
      getProp neo (str "nodes") = .ok (.arr w.databases.neo4j)) ∧
    Call.run w .getAllStorage = w ∧
    (∀ calls, runCalls (Call.run w .getAllStorage) calls = runCalls w calls) := by
  refine ⟨⟨_, rfl, rfl, rfl⟩, ⟨_, rfl, rfl, rfl⟩, ⟨_, rfl, ?_, rfl⟩, ⟨_, rfl, rfl, rfl⟩, rfl,
    fun _ => rfl⟩
  rw [List.card_toFinset]
  rfl

/-- C22. A relational insert whose two clock readings differ by a millisecond stores a
record whose `created_at` and `updated_at` differ; and a payload with an `updated_at`
field replaces the generated one, so the two differ although the clock readings agree. -/
theorem C22_created_and_updated_may_differ :
    storeInPostgreSQL World.initial (str "2024-01-01T00:00:00.000Z")
        (str "2024-01-01T00:00:00.001Z") (.obj []) =
      (.ok (.obj [(str "id", .num (str "1")),
                  (str "created_at", .str (str "2024-01-01T00:00:00.000Z")),
                  (str "updated_at", .str (str "2024-01-01T00:00:00.001Z"))]),
       { databases :=
           { postgresql :=
               [.obj [(str "id", .num (str "1")),
                      (str "created_at", .str (str "2024-01-01T00:00:00.000Z")),
                      (str "updated_at", .str (str "2024-01-01T00:00:00.001Z"))]]
             mongodb := [], redis := [], neo4j := [] }
         counters := { postgresql := 2, mongodb := 1, neo4j := 1 }
         console := [.success (str "Stored in PostgreSQL with ID: 1")] }) ∧
    (storeInPostgreSQL World.initial (str "2024-01-01T00:00:00.000Z")
        (str "2024-01-01T00:00:00.000Z")
        (.obj [(str "updated_at", .str (str "1999-12-31T23:59:59.000Z"))])).1 =
      .ok (.obj [(str "id", .num (str "1")),
                 (str "created_at", .str (str "2024-01-01T00:00:00.000Z")),
                 (str "updated_at", .str (str "1999-12-31T23:59:59.000Z"))]) ∧
    str "2024-01-01T00:00:00.000Z" ≠ str "2024-01-01T00:00:00.001Z" := by
  refine ⟨rfl, rfl, ?_⟩
  decide

/-- C23. From every state and with any clock readings, the demo handler answers with
status 200 and `itemsLoaded` 8, and leaves relational records with ids 1 and 2, documents
`doc_1` and `doc_2`, exactly the cache keys `session_abc123` and `rate_limit_api`, and
graph nodes `node_1` and `node_2` labelled `['User']`; the eight requests are routed to
postgresql, mongodb, redis and neo4j, two each. -/
theorem C23_demo_seeds_two_per_store (w : World) (clocks : Nat → Readings) (timestamp : Str) :
    (demo w clocks timestamp).1 =
      { status := 200
        body := .obj [(str "success", .bool true),
                      (str "message", .str (str "Demo data loaded")),
                      (str "itemsLoaded", .num (str "8")),
                      (str "timestamp", .str timestamp)] } ∧
    ((demo w clocks timestamp).2.databases.postgresql.map
      fun record => getProp record (str "id")) = [.ok (.num (str "1")), .ok (.num (str "2"))] ∧
    ((demo w clocks timestamp).2.databases.mongodb.map
      fun document => getProp document (str "_id")) =
        [.ok (.str (str "doc_1")), .ok (.str (str "doc_2"))] ∧
    (demo w clocks timestamp).2.databases.redis.map Prod.fst =
      [str "session_abc123", str "rate_limit_api"] ∧
    ((demo w clocks timestamp).2.databases.neo4j.map
      fun node => getProp node (str "nodeId")) =
        [.ok (.str (str "node_1")), .ok (.str (str "node_2"))] ∧
    ((demo w clocks timestamp).2.databases.neo4j.map
      fun node => getProp node (str "labels")) =
        [.ok (.arr [.str (str "User")]), .ok (.arr [.str (str "User")])] ∧
    (demo w clocks timestamp).2.counters = { postgresql := 3, mongodb := 3, neo4j := 3 } ∧
    (demoData.map fun data => (analyzeAndRoute w data).map fun r => r.1.database) =
      [.ok (str "postgresql"), .ok (str "postgresql"), .ok (str "mongodb"),
       .ok (str "mongodb"), .ok (str "redis"), .ok (str "redis"), .ok (str "neo4j"),
       .ok (str "neo4j")] := by
  refine ⟨?_, ?_, ?_, ?_, ?_, ?_, ?_, ?_⟩ <;> with_unfolding_all rfl

/-! ## The reverse substring test, and the front end's pairs -/

theorem rule_reasons_not_default :
    ∀ rule ∈ routingRules, rule.2.reason ≠ defaultReason := by
  decide

theorem selectStore_of_match (dataType : Str) (rule : Str × RuleConfig)
    (hrule : rule ∈ routingRules) (hm : Matches dataType rule.2) :
    ∃ pre first post, routingRules = pre ++ first :: post ∧ Matches dataType first.2 ∧
      (∀ p ∈ pre, ¬ Matches dataType p.2) ∧
      selectStore dataType = (first.1, first.2.reason) := by
  cases hfind : routingRules.find? (fun r => ruleMatches dataType r.2) with
  | none =>
    rw [List.find?_eq_none] at hfind
    exact absurd ((ruleMatches_iff _ _).2 hm) (hfind rule hrule)
  | some first =>
    obtain ⟨hp, as, bs, hsplit, hnone⟩ := List.find?_eq_some.1 hfind
    have hpre : ∀ p ∈ as, ¬ Matches dataType p.2 := by
      intro p hp' hmp
      have := hnone p hp'
      simp [(ruleMatches_iff _ _).2 hmp] at this
    exact ⟨as, first, bs, hsplit, (ruleMatches_iff _ _).1 hp, hpre,
      selectStore_first dataType as bs first hsplit ((ruleMatches_iff _ _).1 hp) hpre⟩

/-- C24. For every string type whose normalized form is not empty and occurs inside one
of the keywords, `analyzeAndRoute` returns the store and the reason of the first rule, in
table order, that has a keyword containing the normalized type or contained in it, and
that reason is not the default reason; the type `a` is routed to postgresql with the
reason `ACID compliance required for transactional integrity`. -/
theorem C24_reverse_substring_match (w : World) :
    (∀ (t : Str) (rule : Str × RuleConfig) (k : Str), normalizeType t ≠ [] →
      rule ∈ routingRules → k ∈ rule.2.types → normalizeType t <:+: k →
      ∃ d w', analyzeAndRoute w (typed t) = .ok (d, w') ∧
        d.reason ≠ str "Default routing - PostgreSQL provides safe transactional guarantees" ∧
        ∃ pre first post, routingRules = pre ++ first :: post ∧
          Matches (normalizeType t) first.2 ∧
          (∀ p ∈ pre, ¬ Matches (normalizeType t) p.2) ∧
          d.database = first.1 ∧ d.reason = first.2.reason) ∧
    (∃ w', analyzeAndRoute w (typed (str "a")) =
      .ok ({ database := str "postgresql"
             reason := str "ACID compliance required for transactional integrity"
             dataType := str "a" }, w')) := by
  constructor
  · intro t rule k _ hrule hk hsub
    obtain ⟨pre, first, post, hsplit, hm, hpre, hsel⟩ :=
      selectStore_of_match (normalizeType t) rule hrule ⟨k, hk, Or.inr hsub⟩
    refine ⟨_, _, analyzeAndRoute_typed w t, ?_, pre, first, post, hsplit, hm, hpre, ?_, ?_⟩
    · simp only [hsel]
      exact rule_reasons_not_default first (by rw [hsplit]; simp)
    · simp only [hsel]
    · simp only [hsel]
  · have hn : normalizeType (str "a") = str "a" := by decide
    have hs : selectStore (str "a") =
        (str "postgresql", str "ACID compliance required for transactional integrity") := by
      decide
    rw [analyzeAndRoute_typed, hn, hs]
    exact ⟨_, rfl⟩

/-- C24 at the type `Ach`, whose normalized form `ach` occurs in the redis keyword
`cache`: the decision's reason is not the default one. -/
theorem C24_reverse_substring_match_witness :
    ∃ d w', analyzeAndRoute World.initial (typed (str "Ach")) = .ok (d, w') ∧
      d.reason ≠ str "Default routing - PostgreSQL provides safe transactional guarantees" := by
  obtain ⟨d, w', hrun, hreason, _⟩ :=
    (C24_reverse_substring_match World.initial).1 (str "Ach")
      (str "redis",
        { types := [str "cache", str "session", str "token", str "temp", str "temporary",
                    str "fast", str "realtime", str "counter", str "rate"]
          reason := str "In-memory speed for cache and session data" })
      (str "cache") (by decide) (by simp [routingRules]) (by simp)
      ((includes_iff _ _).1 (by decide))
  exact ⟨d, w', hrun, hreason⟩

/-- C25, as stated, fails: the front end pairs `User Profile` with mongodb, and the back
end routes the type `User Profile` to postgresql (its normalized form contains the
relational keyword `user`). -/
theorem C25_counterexample :
    (str "User Profile", str "mongodb") ∈ simulateRequestPairs ∧
    analyzeAndRoute World.initial (typed (str "User Profile")) =
      .ok ({ database := str "postgresql"
             reason := str "ACID compliance required for transactional integrity"
             dataType := str "user profile" },
           { World.initial with
             console := [.route (str "user profile") (str "POSTGRESQL")
               (str "ACID compliance required for transactional integrity")] }) ∧
    str "postgresql" ≠ str "mongodb" := by
  refine ⟨by decide, rfl, by decide⟩

theorem frontend_pairs_selected :
    (∀ p ∈ simulateRequestPairs, p.1 ≠ str "User Profile" →
      (selectStore (normalizeType p.1)).1 = p.2) ∧
    (∀ p ∈ populateRoutingLogEntries, p.1 ≠ str "User Session" →
      getDatabaseDisplayName (selectStore (normalizeType p.1)).1 = p.2) ∧
    (selectStore (normalizeType (str "User Profile"))).1 = str "postgresql" ∧
    (selectStore (normalizeType (str "User Session"))).1 = str "postgresql" := by
  decide

/-- C25, amended. For every pair of `simulateRequest` other than `User Profile` and every
entry of `populateRoutingLog` other than `User Session`, the back end's `analyzeAndRoute`,
given the data type as its type, selects the target the front end shows (compared through
the display name for the log entries); `User Profile` and `User Session` are routed to
postgresql. -/
theorem C25_frontend_pairs (w : World) :
    (∀ p ∈ simulateRequestPairs, p.1 ≠ str "User Profile" →
      ∃ d w', analyzeAndRoute w (typed p.1) = .ok (d, w') ∧ d.database = p.2) ∧
    (∀ p ∈ populateRoutingLogEntries, p.1 ≠ str "User Session" →
      ∃ d w', analyzeAndRoute w (typed p.1) = .ok (d, w') ∧
        getDatabaseDisplayName d.database = p.2) ∧
    (∃ d w', analyzeAndRoute w (typed (str "User Profile")) = .ok (d, w') ∧
      d.database = str "postgresql") ∧
    (∃ d w', analyzeAndRoute w (typed (str "User Session")) = .ok (d, w') ∧
      d.database = str "postgresql") := by
  obtain ⟨h₁, h₂, h₃, h₄⟩ := frontend_pairs_selected
  refine ⟨?_, ?_, ?_, ?_⟩
  · intro p hp hne
    exact ⟨_, _, analyzeAndRoute_typed w p.1, h₁ p hp hne⟩
  · intro p hp hne
    exact ⟨_, _, analyzeAndRoute_typed w p.1, h₂ p hp hne⟩
  · exact ⟨_, _, analyzeAndRoute_typed w _, h₃⟩
  · exact ⟨_, _, analyzeAndRoute_typed w _, h₄⟩

/-- C25 (amended) at the log entry `Friend Request`, shown with the target `Neo4j`. -/
theorem C25_frontend_pairs_witness :
    ∃ d w', analyzeAndRoute World.initial (typed (str "Friend Request")) = .ok (d, w') ∧
      getDatabaseDisplayName d.database = str "Neo4j" :=
  (C25_frontend_pairs World.initial).2.1 (str "Friend Request", str "Neo4j") (by decide)
    (by decide)

/-! ## Counters and sequences -/

theorem storeInNeo4j_ok (w : World) (createdAt : Str) (data : Value)
    (hdata : data ≠ .undefined ∧ data ≠ .null) :
    ∃ node, (storeInNeo4j w createdAt data).1 = .ok node := by
  have hget : ∀ k, getProp data k = .ok ((lookup k (ownProps data)).getD .undefined) := by
    intro k
    cases data with
    | undefined => exact absurd rfl hdata.1
    | null => exact absurd rfl hdata.2
    | _ => rfl
  unfold storeInNeo4j
  simp only [hget]
  exact ⟨_, rfl⟩

theorem Call.hasPayload_neo4j (createdAt : Str) (data : Value)
    (h : (Call.storeInNeo4j createdAt data).hasPayload = true) :
    data ≠ .undefined ∧ data ≠ .null := by
  cases data <;>
    first
    | exact ⟨fun h' => Value.noConfusion h', fun h' => Value.noConfusion h'⟩
    | cases h

theorem Call.run_countersMatch (w : World) (c : Call) (hw : CountersMatch w)
    (hc : c.hasPayload = true) : CountersMatch (c.run w) := by
  obtain ⟨h₁, h₂, h₃⟩ := hw
  cases c with
  | storeInPostgreSQL createdAt updatedAt data =>
    obtain ⟨hcnt, hdb⟩ := storeInPostgreSQL_world w createdAt updatedAt data
    simp only [CountersMatch, Call.run, hcnt, hdb, List.length_append, List.length_singleton]
    omega
  | storeInMongoDB createdAt updatedAt data =>
    obtain ⟨hcnt, hdb⟩ := storeInMongoDB_world w createdAt updatedAt data
    simp only [CountersMatch, Call.run, hcnt, hdb, List.length_append, List.length_singleton]
    omega
  | storeInRedis nowMs storedAt key data =>
    obtain ⟨hcnt, e₁, e₂, e₃⟩ := storeInRedis_frame w nowMs storedAt key data
    simp only [CountersMatch, Call.run, hcnt, e₁, e₂, e₃]
    exact ⟨h₁, h₂, h₃⟩
  | storeInNeo4j createdAt data =>
    obtain ⟨hcnt, e₁, e₂, _, hok, _⟩ := storeInNeo4j_frame w createdAt data
    obtain ⟨node, hnode⟩ := storeInNeo4j_ok w createdAt data (Call.hasPayload_neo4j _ _ hc)
    simp only [CountersMatch, Call.run, hcnt, e₁, e₂, hok node hnode, List.length_append,
      List.length_singleton]
    omega
  | getAllStorage => exact ⟨h₁, h₂, h₃⟩
  | clearAll => exact ⟨rfl, rfl, rfl⟩

theorem runCalls_countersMatch (calls : List Call) :
    ∀ w : World, CountersMatch w → (∀ c ∈ calls, c.hasPayload = true) →
      CountersMatch (runCalls w calls) := by
  induction calls with
  | nil => intro w hw _; exact hw
  | cons c cs ih =>
    intro w hw h
    exact ih (c.run w) (Call.run_countersMatch w c hw (h c (by simp)))
      (fun c' hc' => h c' (by simp [hc']))

/-- C26, as stated, fails: after the single call `storeInNeo4j(null)` from the initial
state the graph counter is 2 and the graph sequence is empty (the counter is advanced
before `data.labels` throws). -/
theorem C26_counterexample :
    (runCalls World.initial
        [.storeInNeo4j (str "2024-01-01T00:00:00.000Z") .null]).counters.neo4j = 2 ∧
    (runCalls World.initial
        [.storeInNeo4j (str "2024-01-01T00:00:00.000Z") .null]).databases.neo4j = [] ∧
    ¬ CountersMatch
        (runCalls World.initial [.storeInNeo4j (str "2024-01-01T00:00:00.000Z") .null]) := by
  refine ⟨rfl, rfl, ?_⟩
  intro h
  exact absurd h.2.2 (by decide)

/-- C26, amended. In every state reached from the initial state by a sequence of
`storeInPostgreSQL`, `storeInMongoDB`, `storeInRedis`, `storeInNeo4j`, `getAllStorage`
and `clearAll` calls in which no `storeInNeo4j` call is given `undefined` or `null` as its
payload, each of the three counters equals the length of its own sequence plus one. -/
theorem C26_counters_match_lengths (calls : List Call)
    (hcalls : ∀ c ∈ calls, c.hasPayload = true) :
    (runCalls World.initial calls).counters.postgresql =
      (runCalls World.initial calls).databases.postgresql.length + 1 ∧
    (runCalls World.initial calls).counters.mongodb =
      (runCalls World.initial calls).databases.mongodb.length + 1 ∧
    (runCalls World.initial calls).counters.neo4j =
      (runCalls World.initial calls).databases.neo4j.length + 1 :=
  runCalls_countersMatch calls World.initial ⟨rfl, rfl, rfl⟩ hcalls

/-- C26 (amended) at a sequence of four calls: a graph insert, a relational insert that
throws after it has stored its record, a clear and a graph insert. -/
theorem C26_counters_match_lengths_witness :
    (runCalls World.initial
        [.storeInNeo4j (str "2024-01-01T00:00:00.000Z") (.obj []),
         .storeInPostgreSQL (str "2024-01-01T00:00:00.001Z") (str "2024-01-01T00:00:00.001Z")
            (.obj [(str "id", .obj [(str "toString", .num (str "0"))])]),
         .clearAll,
         .storeInNeo4j (str "2024-01-01T00:00:00.002Z") (.str (str "x"))]).counters.neo4j =
      (runCalls World.initial
        [.storeInNeo4j (str "2024-01-01T00:00:00.000Z") (.obj []),
         .storeInPostgreSQL (str "2024-01-01T00:00:00.001Z") (str "2024-01-01T00:00:00.001Z")
            (.obj [(str "id", .obj [(str "toString", .num (str "0"))])]),
         .clearAll,
         .storeInNeo4j (str "2024-01-01T00:00:00.002Z")
            (.str (str "x"))]).databases.neo4j.length + 1 :=
  (C26_counters_match_lengths _ (by simp [Call.hasPayload])).2.2

/-! ## Precedence of the payload, white-space types -/

theorem storeInMongoDB_returns (w : World) (createdAt updatedAt : Str) (data : Value)
    (shown : Str)
    (h : toStringJS ((lookup (str "_id") (ownProps data)).getD
        (.str (str "doc_" ++ decimal w.counters.mongodb))) = .ok shown) :
    (storeInMongoDB w createdAt updatedAt data).1 =
      .ok (.obj (spread [(str "_id", .str (str "doc_" ++ decimal w.counters.mongodb)),
                         (str "createdAt", .str createdAt),
                         (str "updatedAt", .str updatedAt)] data)) := by
  have hid : (lookup (str "_id") (spread [(str "_id", .str (str "doc_" ++ decimal w.counters.mongodb)),
      (str "createdAt", .str createdAt), (str "updatedAt", .str updatedAt)] data)).getD
        .undefined =
      (lookup (str "_id") (ownProps data)).getD
        (.str (str "doc_" ++ decimal w.counters.mongodb)) := by
    rw [lookup_spread]
    have hb : lookup (str "_id") [(str "_id", Value.str (str "doc_" ++ decimal w.counters.mongodb)),
        (str "createdAt", Value.str createdAt), (str "updatedAt", Value.str updatedAt)] =
        some (Value.str (str "doc_" ++ decimal w.counters.mongodb)) := by
      have e1 : (str "updatedAt" = str "_id") = False := by decide
      have e2 : (str "createdAt" = str "_id") = False := by decide
      simp only [lookup, e1, e2, if_false, if_true]
    rw [hb]
    cases lookup (str "_id") (ownProps data) <;> rfl
  unfold storeInMongoDB
  simp only
  rw [hid, h]

/-- C27. In the relational adapter, for every payload, the record that is stored last and
that the call returns (it returns whenever the record's id converts to a string) has,
for each of `id`, `created_at` and `updated_at` that the payload has, the payload's value,
and the relational counter is advanced by one; the same holds in the document adapter for
`_id`, `createdAt` and `updatedAt` and the document counter. -/
theorem C27_payload_fields_take_precedence (w : World) (createdAt updatedAt : Str)
    (data : Value) :
    (∃ record,
      (storeInPostgreSQL w createdAt updatedAt data).2.databases.postgresql =
        w.databases.postgresql ++ [.obj record] ∧
      (storeInPostgreSQL w createdAt updatedAt data).2.counters.postgresql =
        w.counters.postgresql + 1 ∧
      (∀ r, (storeInPostgreSQL w createdAt updatedAt data).1 = .ok r → r = .obj record) ∧
      (∀ shown,
        toStringJS ((lookup (str "id") (ownProps data)).getD
          (Value.ofNat w.counters.postgresql)) = .ok shown →
        (storeInPostgreSQL w createdAt updatedAt data).1 = .ok (.obj record)) ∧
      (∀ v, lookup (str "id") (ownProps data) = some v → lookup (str "id") record = some v) ∧
      (∀ v, lookup (str "created_at") (ownProps data) = some v →
        lookup (str "created_at") record = some v) ∧
      (∀ v, lookup (str "updated_at") (ownProps data) = some v →
        lookup (str "updated_at") record = some v)) ∧
    (∃ document,
      (storeInMongoDB w createdAt updatedAt data).2.databases.mongodb =
        w.databases.mongodb ++ [.obj document] ∧
      (storeInMongoDB w createdAt updatedAt data).2.counters.mongodb =
        w.counters.mongodb + 1 ∧
      (∀ r, (storeInMongoDB w createdAt updatedAt data).1 = .ok r → r = .obj document) ∧
      (∀ shown,
        toStringJS ((lookup (str "_id") (ownProps data)).getD
          (.str (str "doc_" ++ decimal w.counters.mongodb))) = .ok shown →
        (storeInMongoDB w createdAt updatedAt data).1 = .ok (.obj document)) ∧
      (∀ v, lookup (str "_id") (ownProps data) = some v →
        lookup (str "_id") document = some v) ∧
      (∀ v, lookup (str "createdAt") (ownProps data) = some v →
        lookup (str "createdAt") document = some v) ∧
      (∀ v, lookup (str "updatedAt") (ownProps data) = some v →
        lookup (str "updatedAt") document = some v)) := by
  constructor
  · refine ⟨_, ?_, ?_, storeInPostgreSQL_returned w createdAt updatedAt data,
      fun shown h => storeInPostgreSQL_returns w createdAt updatedAt data shown h,
      ?_, ?_, ?_⟩
    · rw [(storeInPostgreSQL_world w createdAt updatedAt data).2]
    · rw [(storeInPostgreSQL_world w createdAt updatedAt data).1]
    all_goals (intro v hv; rw [lookup_spread, hv])
  · refine ⟨_, ?_, ?_, storeInMongoDB_returned w createdAt updatedAt data,
      fun shown h => storeInMongoDB_returns w createdAt updatedAt data shown h,
      ?_, ?_, ?_⟩
    · rw [(storeInMongoDB_world w createdAt updatedAt data).2]
    · rw [(storeInMongoDB_world w createdAt updatedAt data).1]
    all_goals (intro v hv; rw [lookup_spread, hv])

/-- C27 at the payload `{id: 'X-9', updated_at: 'never'}` in the initial state: the call
returns the record, whose `id` and `updated_at` are the payload's, and the counter is 2. -/
theorem C27_payload_fields_take_precedence_witness :
    storeInPostgreSQL World.initial (str "2024-01-01T00:00:00.000Z")
        (str "2024-01-01T00:00:00.000Z")
        (.obj [(str "id", .str (str "X-9")), (str "updated_at", .str (str "never"))]) =
      (.ok (.obj [(str "id", .str (str "X-9")),
                  (str "created_at", .str (str "2024-01-01T00:00:00.000Z")),
                  (str "updated_at", .str (str "never"))]),
       { databases :=
           { postgresql :=
               [.obj [(str "id", .str (str "X-9")),
                      (str "created_at", .str (str "2024-01-01T00:00:00.000Z")),
                      (str "updated_at", .str (str "never"))]]
             mongodb := [], redis := [], neo4j := [] }
         counters := { postgresql := 2, mongodb := 1, neo4j := 1 }
         console := [.success (str "Stored in PostgreSQL with ID: X-9")] }) ∧
    ∃ record : Fields, lookup (str "id") record = some (.str (str "X-9")) := by
  obtain ⟨record, _, _, _, _, hid, _⟩ :=
    (C27_payload_fields_take_precedence World.initial (str "2024-01-01T00:00:00.000Z")
      (str "2024-01-01T00:00:00.000Z")
      (.obj [(str "id", .str (str "X-9")), (str "updated_at", .str (str "never"))])).1
  exact ⟨rfl, record, hid _ rfl⟩

theorem normalizeType_whiteSpace (t : Str) (hne : t ≠ [])
    (hws : ∀ c ∈ t, isWhiteSpace c = true) : normalizeType t = [] := by
  unfold normalizeType
  rw [if_neg hne, toLowerCase_of_isWhiteSpace t hws]
  unfold trim trimStart trimEnd
  rw [List.dropWhile_eq_nil_iff.2 hws]
  rfl

/-- C28. For every type that is not empty and consists of white space only,
`analyzeAndRoute` returns `dataType` `''`, database postgresql and the reason `ACID
compliance required for transactional integrity`: the empty string occurs in the first
keyword of the first rule. -/
theorem C28_whiteSpace_type (w : World) (t : Str) (hne : t ≠ [])
    (hws : ∀ c ∈ t, isWhiteSpace c = true) :
    (∃ w', analyzeAndRoute w (typed t) =
      .ok ({ database := str "postgresql"
             reason := str "ACID compliance required for transactional integrity"
             dataType := [] }, w')) ∧
    str "ACID compliance required for transactional integrity" ≠
      str "Default routing - PostgreSQL provides safe transactional guarantees" ∧
    ([] : Str) ≠ str "unknown" ∧
    ([] : Str) <:+: str "transaction" := by
  have hs : selectStore [] =
      (str "postgresql", str "ACID compliance required for transactional integrity") := by
    decide
  refine ⟨?_, by decide, by decide, List.nil_infix⟩
  rw [analyzeAndRoute_typed, normalizeType_whiteSpace t hne hws, hs]
  exact ⟨_, rfl⟩

/-- C28 at the type made of a space, a tab and a no-break space. -/
theorem C28_whiteSpace_type_witness :
    ∃ w', analyzeAndRoute World.initial (typed [0x20, 0x09, 0xA0]) =
      .ok ({ database := str "postgresql"
             reason := str "ACID compliance required for transactional integrity"
             dataType := [] }, w') :=
  (C28_whiteSpace_type World.initial [0x20, 0x09, 0xA0] (by decide) (by decide)).1

/-! ## Requests without a payload, and the fallback cache key -/

theorem payloadOf_of_falsy (data : Value)
    (h : truthy ((lookup (str "payload") (ownProps data)).getD .undefined) = false) :
    payloadOf data = data := by
  unfold payloadOf orElse
  rw [if_neg (by simp [h])]

theorem routeAndStore_world (w w₁ : World) (clock : Readings) (data : Value) (d : Decision)
    (h : analyzeAndRoute w data = .ok (d, w₁)) :
    (d.database = str "postgresql" →
      (routeAndStore w clock data).2 =
        (storeInPostgreSQL w₁ clock.first clock.second (payloadOf data)).2) ∧
    (d.database = str "mongodb" →
      (routeAndStore w clock data).2 =
        (storeInMongoDB w₁ clock.first clock.second (payloadOf data)).2) ∧
    (d.database = str "redis" →
      (routeAndStore w clock data).2 =
        (storeInRedis w₁ clock.nowMs clock.first
          (orElse (orElse ((lookup (str "key") (ownProps data)).getD .undefined)
            ((lookup (str "key") (ownProps (payloadOf data))).getD .undefined)) .null)
          (payloadOf data)).2) ∧
    (d.database = str "neo4j" →
      (routeAndStore w clock data).2 = (storeInNeo4j w₁ clock.first (payloadOf data)).2) := by
  have e1 : (str "redis" = str "postgresql") = False := by decide
  have e2 : (str "redis" = str "mongodb") = False := by decide
  have e3 : (str "mongodb" = str "postgresql") = False := by decide
  have e4 : (str "neo4j" = str "postgresql") = False := by decide
  have e5 : (str "neo4j" = str "mongodb") = False := by decide
  have e6 : (str "neo4j" = str "redis") = False := by decide
  have hp := analyzeAndRoute_getProp w w₁ data d h (str "payload")
  have hk := analyzeAndRoute_getProp w w₁ data d h (str "key")
  have hpk := getProp_payloadOf data (str "payload") _ hp (str "key")
  have hpay : orElse ((lookup (str "payload") (ownProps data)).getD .undefined) data =
      payloadOf data := rfl
  refine ⟨?_, ?_, ?_, ?_⟩ <;> intro hdb <;> unfold routeAndStore <;> rw [h] <;>
    simp only [hp, hdb, e1, e2, e3, e4, e5, e6, if_false, if_true, hpay, hk, hpk] <;>
    split <;> simp_all


/-- C29. For every request that `analyzeAndRoute` accepts and whose `payload` field is
absent or falsy (`null`, `false`, `0`, `NaN`, `''`), `routeAndStore` calls the adapter of
the chosen store with the whole request as the payload; the relational record then
carries every field of the request, and for the request `{type: 'order', key: 'k1'}` the
record stored from the initial state has the fields `type` and `key` of the request. -/
theorem C29_whole_request_is_payload (w w₁ : World) (clock : Readings) (data : Value)
    (d : Decision) (hroute : analyzeAndRoute w data = .ok (d, w₁))
    (hpayload : truthy ((lookup (str "payload") (ownProps data)).getD .undefined) = false) :
    (d.database = str "postgresql" →
      (routeAndStore w clock data).2 =
        (storeInPostgreSQL w₁ clock.first clock.second data).2 ∧
      ∃ record,
        (routeAndStore w clock data).2.databases.postgresql =
          w.databases.postgresql ++ [.obj record] ∧
        ∀ k v, lookup k (ownProps data) = some v → lookup k record = some v) ∧
    (d.database = str "mongodb" →
      (routeAndStore w clock data).2 =
        (storeInMongoDB w₁ clock.first clock.second data).2) ∧
    (d.database = str "redis" →
      (routeAndStore w clock data).2 =
        (storeInRedis w₁ clock.nowMs clock.first
          (orElse (orElse ((lookup (str "key") (ownProps data)).getD .undefined)
            ((lookup (str "key") (ownProps data)).getD .undefined)) .null) data).2) ∧
    (d.database = str "neo4j" →
      (routeAndStore w clock data).2 = (storeInNeo4j w₁ clock.first data).2) ∧
    (routeAndStore World.initial clock
        (.obj [(str "type", .str (str "order")),
               (str "key", .str (str "k1"))])).2.databases.postgresql =
      [.obj [(str "id", .num (str "1")), (str "created_at", .str clock.first),
             (str "updated_at", .str clock.second), (str "type", .str (str "order")),
             (str "key", .str (str "k1"))]] := by
  obtain ⟨h₁, h₂, h₃, h₄⟩ := routeAndStore_world w w₁ clock data d hroute
  rw [payloadOf_of_falsy data hpayload] at h₁ h₂ h₃ h₄
  refine ⟨?_, h₂, h₃, h₄, ?_⟩
  · intro hdb
    refine ⟨h₁ hdb,
      spread [(str "id", Value.ofNat w₁.counters.postgresql),
              (str "created_at", .str clock.first),
              (str "updated_at", .str clock.second)] data, ?_, ?_⟩
    · rw [h₁ hdb, (storeInPostgreSQL_world w₁ clock.first clock.second data).2,
        (analyzeAndRoute_frame w w₁ data d hroute).1]
    · intro k v hv
      rw [lookup_spread, hv]
  · with_unfolding_all rfl

/-- C29 at the request `{type: 'transaction', payload: null, note: 'n'}` in the initial
state: the relational record carries the request's `type`. -/
theorem C29_whole_request_is_payload_witness :
    ∃ record,
      (routeAndStore World.initial
          { nowMs := 5, first := str "2024-01-01T00:00:00.000Z",
            second := str "2024-01-01T00:00:00.000Z",
            timestamp := str "2024-01-01T00:00:00.001Z" }
          (.obj [(str "type", .str (str "transaction")), (str "payload", .null),
                 (str "note", .str (str "n"))])).2.databases.postgresql =
        World.initial.databases.postgresql ++ [.obj record] ∧
      lookup (str "type") record = some (.str (str "transaction")) := by
  obtain ⟨record, hstored, hcarries⟩ :=
    ((C29_whole_request_is_payload World.initial _
      { nowMs := 5, first := str "2024-01-01T00:00:00.000Z",
        second := str "2024-01-01T00:00:00.000Z", timestamp := str "2024-01-01T00:00:00.001Z" }
      (.obj [(str "type", .str (str "transaction")), (str "payload", .null),
             (str "note", .str (str "n"))])
      _ rfl rfl).1 (by decide)).2
  exact ⟨record, hstored, hcarries _ _ rfl⟩

theorem fallback_key_ne_proto (nowMs : Nat) : str "cache_" ++ decimal nowMs ≠ str "__proto__" := by
  intro h
  have h₁ : (str "cache_" ++ decimal nowMs).head? = some 99 := rfl
  have h₂ : (str "__proto__").head? = some 95 := by decide
  rw [h, h₂] at h₁
  exact absurd h₁ (by decide)

theorem storeInRedis_keyless (w : World) (nowMs : Nat) (storedAt : Str) (key data : Value)
    (hkey : truthy key = false) :
    storeInRedis w nowMs storedAt key data =
      (.ok (.obj [(str "key", .str (str "cache_" ++ decimal nowMs)), (str "value", data),
                  (str "storedAt", .str storedAt), (str "ttl", .num (str "3600"))]),
       { w with
         databases :=
          { w.databases with
            redis := setProp w.databases.redis (str "cache_" ++ decimal nowMs)
              (cacheEntry data storedAt) }
         console := w.console ++
          [.success (str "Stored in Redis with key: " ++ (str "cache_" ++ decimal nowMs))] }) := by
  have ho : orElse key (.str (str "cache_" ++ decimal nowMs)) =
      .str (str "cache_" ++ decimal nowMs) := by
    unfold orElse
    rw [if_neg (by simp [hkey])]
  rw [storeInRedis_key, ho]
  simp only [toStringJS, assign, if_neg (fallback_key_ne_proto nowMs)]

/-- C30. A cache write without a key (the key argument is `undefined`, `null` or another
falsy value) at the clock reading `T` returns a record whose key is `cache_T` and stores
its entry under `cache_T`, whatever the state and the payload. Hence, of two such writes
made at the same reading, the second replaces the entry of the first and leaves the
number of keys as the first left it: when `cache_T` was not in the cache before, the two
writes add one key, not two. -/
theorem C30_fallback_key_collision (w : World) (T : Nat) (storedAt₁ storedAt₂ : Str)
    (key₁ key₂ data₁ data₂ : Value) (hkey₁ : truthy key₁ = false)
    (hkey₂ : truthy key₂ = false) :
    (storeInRedis w T storedAt₁ key₁ data₁).1 =
      .ok (.obj [(str "key", .str (str "cache_" ++ decimal T)), (str "value", data₁),
                 (str "storedAt", .str storedAt₁), (str "ttl", .num (str "3600"))]) ∧
    lookup (str "cache_" ++ decimal T) (storeInRedis w T storedAt₁ key₁ data₁).2.databases.redis =
      some (cacheEntry data₁ storedAt₁) ∧
    (storeInRedis (storeInRedis w T storedAt₁ key₁ data₁).2 T storedAt₂ key₂ data₂).1 =
      .ok (.obj [(str "key", .str (str "cache_" ++ decimal T)), (str "value", data₂),
                 (str "storedAt", .str storedAt₂), (str "ttl", .num (str "3600"))]) ∧
    lookup (str "cache_" ++ decimal T)
        (storeInRedis (storeInRedis w T storedAt₁ key₁ data₁).2 T storedAt₂ key₂
          data₂).2.databases.redis =
      some (cacheEntry data₂ storedAt₂) ∧
    keyCount
        (storeInRedis (storeInRedis w T storedAt₁ key₁ data₁).2 T storedAt₂ key₂
          data₂).2.databases.redis =
      keyCount (storeInRedis w T storedAt₁ key₁ data₁).2.databases.redis ∧
    (lookup (str "cache_" ++ decimal T) w.databases.redis = none →
      keyCount
          (storeInRedis (storeInRedis w T storedAt₁ key₁ data₁).2 T storedAt₂ key₂
            data₂).2.databases.redis =
        keyCount w.databases.redis + 1) := by
  have hfirst : lookup (str "cache_" ++ decimal T)
      (setProp w.databases.redis (str "cache_" ++ decimal T) (cacheEntry data₁ storedAt₁)) =
      some (cacheEntry data₁ storedAt₁) := by
    rw [lookup_setProp, if_pos rfl]
  rw [storeInRedis_keyless _ T storedAt₂ key₂ data₂ hkey₂,
    storeInRedis_keyless w T storedAt₁ key₁ data₁ hkey₁]
  refine ⟨rfl, hfirst, rfl, ?_, ?_, ?_⟩
  · simp only
    rw [lookup_setProp, if_pos rfl]
  · simp only
    rw [keyCount_setProp, hfirst]
    rfl
  · intro habsent
    simp only
    rw [keyCount_setProp, hfirst, keyCount_setProp, habsent]
    rfl

/-- C30 at two writes with the key `null` at the clock reading 5, from the initial state:
the cache ends with the single key `cache_5`, which holds the second payload. -/
theorem C30_fallback_key_collision_witness :
    keyCount
        (storeInRedis
          (storeInRedis World.initial 5 (str "2024-01-01T00:00:00.005Z") .null
            (.obj [(str "n", .num (str "1"))])).2
          5 (str "2024-01-01T00:00:00.005Z") .null
          (.obj [(str "n", .num (str "2"))])).2.databases.redis =
      keyCount World.initial.databases.redis + 1 :=
  (C30_fallback_key_collision World.initial 5 (str "2024-01-01T00:00:00.005Z")
    (str "2024-01-01T00:00:00.005Z") .null .null (.obj [(str "n", .num (str "1"))])
    (.obj [(str "n", .num (str "2"))]) rfl rfl).2.2.2.2.2 rfl

end PolyStoreX
